import Mathlib

/-!
# Verification of the tournament CRUD backend (`main.py`)

A shallow embedding of the FastAPI + SQLite backend in `src/main.py`.

* Each SQLite table (`usuarios`, `equipos`, `miembros_equipo`, `torneos`,
  `inscripciones`, `pagos`, `partidos`) is a list of row structures inside a
  `DB` state, together with one AUTOINCREMENT sequence counter per table
  (SQLite's `sqlite_sequence`: a fresh row gets id `seq + 1` and the counter
  is bumped; a failed insert does not bump it).
* Each SQL statement executed by a handler is modelled with its constraint
  checks exactly as declared in the `CREATE TABLE` script of
  `initialize_database` (UNIQUE, CHECK, FOREIGN KEY with ON DELETE
  CASCADE / RESTRICT, and the partial unique index
  `idx_unq_capitan_equipo`), with `PRAGMA foreign_keys = ON` as set by
  `get_db`.
* Each endpoint handler is a function `DB → args → Response α × DB`.
  The returned `DB` is the state of the database file after the request:
  a handler that raises (`HTTPException` or an uncaught
  `sqlite3.IntegrityError`) never reaches `db.commit()`, and `get_db`
  closes the per-request connection, discarding the uncommitted statement,
  so on every error path the committed state is the pre-request state.
* `Response` distinguishes a success body, the 400 `HTTPException`
  (`clientError`), the 404 `HTTPException` (`notFound`), and an exception
  that escapes the handler uncaught (`serverError`, an unstructured
  failure).
* `DATETIME DEFAULT CURRENT_TIMESTAMP` columns are modelled by passing the
  current timestamp string `now` to the handlers that insert such rows.
* Pydantic shape validation happens before a handler runs; handler inputs
  are therefore the already-validated payload structures.  The string
  patterns pydantic checks (`rol`, `estado`) are also CHECK constraints of
  the schema, so they reappear in the insert semantics.
-/

/-- Row of table `usuarios` (main.py lines 433-440).  `email` is UNIQUE. -/
structure UsuarioRow where
  id : Nat
  nombre : String
  nickname : String
  email : String
  pwd_hash : String
  fecha_reg : String
deriving DecidableEq

/-- Response schema `Usuario` (main.py lines 81-95): the stored row without
`pwd_hash`. -/
structure Usuario where
  id : Nat
  nombre : String
  nickname : String
  email : String
  fecha_reg : String
deriving DecidableEq

/-- Request schema `UsuarioCreate` (main.py lines 61-78). -/
structure UsuarioCreate where
  nombre : String
  nickname : String
  email : String
  pwd_hash : String
deriving DecidableEq

/-- Request schema `UsuarioBase` (main.py lines 42-58), the update payload. -/
structure UsuarioBase where
  nombre : String
  nickname : String
  email : String
deriving DecidableEq

/-- Row of table `equipos` (main.py lines 442-447); doubles as the response
schema `Equipo`.  `nombre` is UNIQUE, `id_capitan` references `usuarios(id)`
ON DELETE RESTRICT. -/
structure Equipo where
  id : Nat
  nombre : String
  id_capitan : Nat
deriving DecidableEq

/-- Request schema `EquipoBase`/`EquipoCreate` (main.py lines 98-119). -/
structure EquipoBase where
  nombre : String
  id_capitan : Nat
deriving DecidableEq

/-- Row of table `miembros_equipo` (main.py lines 449-458); doubles as the
response schema `Miembro`.  `(id_equipo, id_usuario)` is UNIQUE, `rol` is
CHECKed against the three roles, both foreign keys are ON DELETE CASCADE,
and `idx_unq_capitan_equipo` (lines 460-462) is a partial unique index on
`id_equipo` restricted to rows with `rol = 'capitan'`. -/
structure Miembro where
  id : Nat
  id_equipo : Nat
  id_usuario : Nat
  rol : String
deriving DecidableEq

/-- Request schema `MiembroBase`/`MiembroCreate` (main.py lines 137-163). -/
structure MiembroCreate where
  id_equipo : Nat
  id_usuario : Nat
  rol : String
deriving DecidableEq

/-- Row of table `torneos` (main.py lines 464-473); doubles as the response
schema `Torneo`.  CHECK `max_equipos > 0` and `estado` in the three-state
enum. -/
structure Torneo where
  id : Nat
  nombre : String
  descripcion : Option String
  fecha_inicio : String
  fecha_fin : String
  max_equipos : Int
  estado : String
deriving DecidableEq

/-- Request schema `TorneoBase`/`TorneoCreate` (main.py lines 181-217), after
pydantic has filled the `estado` default. -/
structure TorneoBase where
  nombre : String
  descripcion : Option String
  fecha_inicio : String
  fecha_fin : String
  max_equipos : Int
  estado : String
deriving DecidableEq

/-- Row of table `inscripciones` (main.py lines 475-483); doubles as the
response schema `Inscripcion`.  `(id_equipo, id_torneo)` is UNIQUE, both
foreign keys are ON DELETE CASCADE. -/
structure Inscripcion where
  id : Nat
  id_equipo : Nat
  id_torneo : Nat
  fecha_inscripcion : String
deriving DecidableEq

/-- Request schema `InscripcionBase`/`InscripcionCreate` (main.py 243-264). -/
structure InscripcionCreate where
  id_equipo : Nat
  id_torneo : Nat
deriving DecidableEq

/-- Row of table `pagos` (main.py lines 485-495); doubles as the response
schema `Pago`.  CHECK `monto_cent >= 0`, `estado` in the two-state enum,
both foreign keys ON DELETE CASCADE. -/
structure Pago where
  id : Nat
  id_equipo : Nat
  id_torneo : Nat
  monto_cent : Int
  estado : String
  fecha_pago : String
deriving DecidableEq

/-- Request schema `PagoBase`/`PagoCreate` (main.py lines 283-310), after
pydantic has filled the `estado` default. -/
structure PagoCreate where
  id_equipo : Nat
  id_torneo : Nat
  monto_cent : Int
  estado : String
deriving DecidableEq

/-- Row of table `partidos` (main.py lines 497-509); doubles as the response
schema `Partido`.  `id_torneo` is ON DELETE CASCADE, both team foreign keys
are ON DELETE RESTRICT, and CHECK `equipo_local <> equipo_visitante`. -/
structure Partido where
  id : Nat
  id_torneo : Nat
  equipo_local : Nat
  equipo_visitante : Nat
  fecha : String
  resultado_local : Option Int
  resultado_visitante : Option Int
deriving DecidableEq

/-- Request schema `PartidoBase`/`PartidoCreate` (main.py lines 329-361). -/
structure PartidoCreate where
  id_torneo : Nat
  equipo_local : Nat
  equipo_visitante : Nat
  fecha : String
  resultado_local : Option Int
  resultado_visitante : Option Int
deriving DecidableEq

/-- The state of the SQLite file `app_db.db`: the seven tables created by
`initialize_database` (main.py lines 410-515) plus one AUTOINCREMENT
sequence per table. -/
structure DB where
  usuarios : List UsuarioRow
  equipos : List Equipo
  miembros : List Miembro
  torneos : List Torneo
  inscripciones : List Inscripcion
  pagos : List Pago
  partidos : List Partido
  seqUsuarios : Nat
  seqEquipos : Nat
  seqMiembros : Nat
  seqTorneos : Nat
  seqInscripciones : Nat
  seqPagos : Nat
  seqPartidos : Nat
deriving DecidableEq

/-- The freshly created database: all tables empty, all sequences at 0. -/
def DB.empty : DB :=
  { usuarios := [], equipos := [], miembros := [], torneos := [],
    inscripciones := [], pagos := [], partidos := [],
    seqUsuarios := 0, seqEquipos := 0, seqMiembros := 0, seqTorneos := 0,
    seqInscripciones := 0, seqPagos := 0, seqPartidos := 0 }

/-- Outcome of one HTTP request: a success body, the 400 `HTTPException`
raised on a caught `sqlite3.IntegrityError`, the 404 `HTTPException`, or an
exception escaping the handler uncaught (an unstructured failure, surfaced
by FastAPI as a 500). -/
inductive Response (α : Type) where
  | ok : α → Response α
  | clientError : Response α
  | notFound : Response α
  | serverError : Response α
deriving DecidableEq

/-- `SELECT * FROM usuarios WHERE id = ?` followed by `fetchone()`. -/
def findUsuario (db : DB) (i : Nat) : Option UsuarioRow :=
  db.usuarios.find? (fun r => r.id == i)

/-- `SELECT * FROM equipos WHERE id = ?` followed by `fetchone()`. -/
def findEquipo (db : DB) (i : Nat) : Option Equipo :=
  db.equipos.find? (fun r => r.id == i)

/-- `SELECT * FROM miembros_equipo WHERE id = ?` followed by `fetchone()`. -/
def findMiembro (db : DB) (i : Nat) : Option Miembro :=
  db.miembros.find? (fun r => r.id == i)

/-- `SELECT * FROM torneos WHERE id = ?` followed by `fetchone()`. -/
def findTorneo (db : DB) (i : Nat) : Option Torneo :=
  db.torneos.find? (fun r => r.id == i)

/-- `SELECT * FROM inscripciones WHERE id = ?` followed by `fetchone()`. -/
def findInscripcion (db : DB) (i : Nat) : Option Inscripcion :=
  db.inscripciones.find? (fun r => r.id == i)

/-- `SELECT * FROM pagos WHERE id = ?` followed by `fetchone()`. -/
def findPago (db : DB) (i : Nat) : Option Pago :=
  db.pagos.find? (fun r => r.id == i)

/-- `SELECT * FROM partidos WHERE id = ?` followed by `fetchone()`. -/
def findPartido (db : DB) (i : Nat) : Option Partido :=
  db.partidos.find? (fun r => r.id == i)

/-- `Usuario(**row)`: building the response model from a stored row drops the
`pwd_hash` column, which is not a field of the `Usuario` schema. -/
def usuarioOut (r : UsuarioRow) : Usuario :=
  { id := r.id, nombre := r.nombre, nickname := r.nickname,
    email := r.email, fecha_reg := r.fecha_reg }

-- ————— Usuarios endpoints (main.py lines 520-796) —————

/-- `POST /users/` (`create_user`, main.py lines 562-587):
`INSERT INTO usuarios (nombre, nickname, email, pwd_hash) VALUES (?,?,?,?)`
then `db.commit()`, both inside a `try` whose `except sqlite3.IntegrityError`
raises a 400; on success the inserted row is re-fetched by `lastrowid` and
returned as `Usuario(**row)`. The only violable constraint is UNIQUE(email).
`fecha_reg` defaults to CURRENT_TIMESTAMP, passed here as `now`. -/
def create_user (db : DB) (u : UsuarioCreate) (now : String) :
    Response Usuario × DB :=
  if ∃ r ∈ db.usuarios, r.email = u.email then
    (.clientError, db)
  else
    let rid := db.seqUsuarios + 1
    let row : UsuarioRow :=
      { id := rid, nombre := u.nombre, nickname := u.nickname,
        email := u.email, pwd_hash := u.pwd_hash, fecha_reg := now }
    let db2 := { db with usuarios := db.usuarios ++ [row], seqUsuarios := rid }
    (match findUsuario db2 rid with
     | some r => .ok (usuarioOut r)
     | none => .serverError, db2)

/-- `GET /users/` (`list_users`, main.py lines 597-608):
`SELECT * FROM usuarios`, each row returned as `Usuario(**r)`. -/
def list_users (db : DB) : List Usuario :=
  db.usuarios.map usuarioOut

/-- `GET /users/{user_id}` (`get_user`, main.py lines 652-670): fetch by id,
404 if no row, else `Usuario(**row)`. -/
def get_user (db : DB) (user_id : Nat) : Response Usuario × DB :=
  match findUsuario db user_id with
  | none => (.notFound, db)
  | some r => (.ok (usuarioOut r), db)

/-- `PUT /users/{user_id}` (`update_user`, main.py lines 714-739):
`UPDATE usuarios SET nombre=?, nickname=?, email=? WHERE id=?` with no
`try/except`, so an `sqlite3.IntegrityError` (new email equal to another
row's email while the target row exists) escapes uncaught; otherwise
`rowcount == 0` raises 404 before `db.commit()`, else commit and re-fetch. -/
def update_user (db : DB) (user_id : Nat) (u : UsuarioBase) :
    Response Usuario × DB :=
  if (∃ r ∈ db.usuarios, r.id = user_id) ∧
     (∃ r ∈ db.usuarios, r.id ≠ user_id ∧ r.email = u.email) then
    (.serverError, db)
  else if (db.usuarios.filter (fun r => r.id == user_id)).length = 0 then
    (.notFound, db)
  else
    let db2 := { db with usuarios := db.usuarios.map (fun r =>
      if r.id = user_id then
        { r with nombre := u.nombre, nickname := u.nickname, email := u.email }
      else r) }
    (match findUsuario db2 user_id with
     | some r => .ok (usuarioOut r)
     | none => .serverError, db2)

/-- `DELETE /users/{user_id}` (`delete_user`, main.py lines 776-796):
`DELETE FROM usuarios WHERE id = ?` with no `try/except`.  `equipos.id_capitan`
references `usuarios(id)` ON DELETE RESTRICT, so deleting a user who captains
some team raises an uncaught `sqlite3.IntegrityError`; `rowcount == 0` raises
404 before commit; otherwise the row is deleted and `miembros_equipo` rows of
the user cascade away. -/
def delete_user (db : DB) (user_id : Nat) : Response Unit × DB :=
  if (∃ r ∈ db.usuarios, r.id = user_id) ∧
     (∃ e ∈ db.equipos, e.id_capitan = user_id) then
    (.serverError, db)
  else if (db.usuarios.filter (fun r => r.id == user_id)).length = 0 then
    (.notFound, db)
  else
    (.ok (), { db with
      usuarios := db.usuarios.filter (fun r => r.id != user_id),
      miembros := db.miembros.filter (fun m => m.id_usuario != user_id) })

-- ————— Equipos endpoints (main.py lines 800-1076) —————

/-- `POST /teams/` (`create_team`, main.py lines 842-867): insert inside a
`try` catching `sqlite3.IntegrityError` as a 400.  Violable constraints:
UNIQUE(nombre) and the `id_capitan` foreign key into `usuarios`. -/
def create_team (db : DB) (t : EquipoBase) : Response Equipo × DB :=
  if (∃ e ∈ db.equipos, e.nombre = t.nombre) ∨
     ¬ (∃ r ∈ db.usuarios, r.id = t.id_capitan) then
    (.clientError, db)
  else
    let rid := db.seqEquipos + 1
    let row : Equipo := { id := rid, nombre := t.nombre, id_capitan := t.id_capitan }
    let db2 := { db with equipos := db.equipos ++ [row], seqEquipos := rid }
    (match findEquipo db2 rid with
     | some r => .ok r
     | none => .serverError, db2)

/-- `GET /teams/` (`list_teams`, main.py lines 877-888). -/
def list_teams (db : DB) : List Equipo :=
  db.equipos

/-- `GET /teams/{team_id}` (`get_team`, main.py lines 932-950). -/
def get_team (db : DB) (team_id : Nat) : Response Equipo × DB :=
  match findEquipo db team_id with
  | none => (.notFound, db)
  | some r => (.ok r, db)

/-- `PUT /teams/{team_id}` (`update_team`, main.py lines 994-1019):
`UPDATE equipos SET nombre=?, id_capitan=? WHERE id=?` with no `try/except`:
an `sqlite3.IntegrityError` (another team already holding the new name, or a
non-existent new captain, while the target row exists) escapes uncaught. -/
def update_team (db : DB) (team_id : Nat) (t : EquipoBase) :
    Response Equipo × DB :=
  if (∃ e ∈ db.equipos, e.id = team_id) ∧
     ((∃ e ∈ db.equipos, e.id ≠ team_id ∧ e.nombre = t.nombre) ∨
      ¬ (∃ r ∈ db.usuarios, r.id = t.id_capitan)) then
    (.serverError, db)
  else if (db.equipos.filter (fun e => e.id == team_id)).length = 0 then
    (.notFound, db)
  else
    let db2 := { db with equipos := db.equipos.map (fun e =>
      if e.id = team_id then { e with nombre := t.nombre, id_capitan := t.id_capitan }
      else e) }
    (match findEquipo db2 team_id with
     | some r => .ok r
     | none => .serverError, db2)

/-- `DELETE /teams/{team_id}` (`delete_team`, main.py lines 1056-1076):
`DELETE FROM equipos WHERE id = ?` with no `try/except`.  `partidos` references
`equipos(id)` twice ON DELETE RESTRICT, so deleting a team that is some
match's home or away team raises an uncaught `sqlite3.IntegrityError`;
`rowcount == 0` raises 404 before commit; otherwise the team row is removed
and its `miembros_equipo`, `inscripciones` and `pagos` rows cascade away. -/
def delete_team (db : DB) (team_id : Nat) : Response Unit × DB :=
  if (∃ e ∈ db.equipos, e.id = team_id) ∧
     (∃ p ∈ db.partidos, p.equipo_local = team_id ∨ p.equipo_visitante = team_id) then
    (.serverError, db)
  else if (db.equipos.filter (fun e => e.id == team_id)).length = 0 then
    (.notFound, db)
  else
    (.ok (), { db with
      equipos := db.equipos.filter (fun e => e.id != team_id),
      miembros := db.miembros.filter (fun m => m.id_equipo != team_id),
      inscripciones := db.inscripciones.filter (fun i => i.id_equipo != team_id),
      pagos := db.pagos.filter (fun p => p.id_equipo != team_id) })

-- ————— Miembros de Equipo endpoints (main.py lines 1080-1226) —————

/-- `POST /members/` (`add_member`, main.py lines 1122-1148): insert inside a
`try` catching `sqlite3.IntegrityError` as a 400.  Violable constraints:
CHECK on `rol`, UNIQUE(id_equipo, id_usuario), both foreign keys, and the
partial unique index `idx_unq_capitan_equipo` forbidding a second
`rol = 'capitan'` row for the same team. -/
def add_member (db : DB) (m : MiembroCreate) : Response Miembro × DB :=
  if ¬ (m.rol = "jugador" ∨ m.rol = "capitan" ∨ m.rol = "suplente") ∨
     (∃ x ∈ db.miembros, x.id_equipo = m.id_equipo ∧ x.id_usuario = m.id_usuario) ∨
     ¬ (∃ e ∈ db.equipos, e.id = m.id_equipo) ∨
     ¬ (∃ r ∈ db.usuarios, r.id = m.id_usuario) ∨
     (m.rol = "capitan" ∧
       ∃ x ∈ db.miembros, x.id_equipo = m.id_equipo ∧ x.rol = "capitan") then
    (.clientError, db)
  else
    let rid := db.seqMiembros + 1
    let row : Miembro :=
      { id := rid, id_equipo := m.id_equipo, id_usuario := m.id_usuario, rol := m.rol }
    let db2 := { db with miembros := db.miembros ++ [row], seqMiembros := rid }
    (match findMiembro db2 rid with
     | some r => .ok r
     | none => .serverError, db2)

/-- `GET /members/` (`list_members`, main.py lines 1158-1169). -/
def list_members (db : DB) : List Miembro :=
  db.miembros

/-- `DELETE /members/{member_id}` (`delete_member`, main.py lines 1206-1226):
plain delete; nothing references `miembros_equipo`. -/
def delete_member (db : DB) (member_id : Nat) : Response Unit × DB :=
  if (db.miembros.filter (fun m => m.id == member_id)).length = 0 then
    (.notFound, db)
  else
    (.ok (), { db with miembros := db.miembros.filter (fun m => m.id != member_id) })

-- ————— Torneos endpoints (main.py lines 1230-1519) —————

/-- `POST /tournaments/` (`create_tournament`, main.py lines 1272-1292): the
only create endpoint with NO `try/except` around the insert, so a CHECK
violation (`max_equipos <= 0` or an out-of-enum `estado`) would escape
uncaught.  Pydantic (`gt=0`, the `estado` pattern) rejects such payloads
with a 422 before the handler runs, so the branch is unreachable for
shape-valid requests. -/
def create_tournament (db : DB) (t : TorneoBase) : Response Torneo × DB :=
  if ¬ (0 < t.max_equipos) ∨
     ¬ (t.estado = "programado" ∨ t.estado = "en_curso" ∨ t.estado = "finalizado") then
    (.serverError, db)
  else
    let rid := db.seqTorneos + 1
    let row : Torneo :=
      { id := rid, nombre := t.nombre, descripcion := t.descripcion,
        fecha_inicio := t.fecha_inicio, fecha_fin := t.fecha_fin,
        max_equipos := t.max_equipos, estado := t.estado }
    let db2 := { db with torneos := db.torneos ++ [row], seqTorneos := rid }
    (match findTorneo db2 rid with
     | some r => .ok r
     | none => .serverError, db2)

/-- `GET /tournaments/` (`list_tournaments`, main.py lines 1302-1313). -/
def list_tournaments (db : DB) : List Torneo :=
  db.torneos

/-- `GET /tournaments/{tournament_id}` (`get_tournament`, main.py 1365-1383). -/
def get_tournament (db : DB) (tournament_id : Nat) : Response Torneo × DB :=
  match findTorneo db tournament_id with
  | none => (.notFound, db)
  | some r => (.ok r, db)

/-- `PUT /tournaments/{tournament_id}` (`update_tournament`, main.py lines
1435-1462): update with no `try/except`; a CHECK violation on the target row
escapes uncaught (unreachable for shape-valid payloads). -/
def update_tournament (db : DB) (tournament_id : Nat) (t : TorneoBase) :
    Response Torneo × DB :=
  if (∃ x ∈ db.torneos, x.id = tournament_id) ∧
     (¬ (0 < t.max_equipos) ∨
      ¬ (t.estado = "programado" ∨ t.estado = "en_curso" ∨ t.estado = "finalizado")) then
    (.serverError, db)
  else if (db.torneos.filter (fun x => x.id == tournament_id)).length = 0 then
    (.notFound, db)
  else
    let db2 := { db with torneos := db.torneos.map (fun x =>
      if x.id = tournament_id then
        { x with nombre := t.nombre, descripcion := t.descripcion,
                 fecha_inicio := t.fecha_inicio, fecha_fin := t.fecha_fin,
                 max_equipos := t.max_equipos, estado := t.estado }
      else x) }
    (match findTorneo db2 tournament_id with
     | some r => .ok r
     | none => .serverError, db2)

/-- `DELETE /tournaments/{tournament_id}` (`delete_tournament`, main.py lines
1499-1519): `DELETE FROM torneos WHERE id = ?`.  Every reference to `torneos`
(`inscripciones`, `pagos`, `partidos`) is ON DELETE CASCADE, so the delete
never violates a constraint; `rowcount == 0` raises 404 before commit. -/
def delete_tournament (db : DB) (tournament_id : Nat) : Response Unit × DB :=
  if (db.torneos.filter (fun t => t.id == tournament_id)).length = 0 then
    (.notFound, db)
  else
    (.ok (), { db with
      torneos := db.torneos.filter (fun t => t.id != tournament_id),
      inscripciones := db.inscripciones.filter (fun i => i.id_torneo != tournament_id),
      pagos := db.pagos.filter (fun p => p.id_torneo != tournament_id),
      partidos := db.partidos.filter (fun p => p.id_torneo != tournament_id) })

-- ————— Inscripciones endpoints (main.py lines 1523-1669) —————

/-- `POST /inscriptions/` (`create_inscription`, main.py lines 1565-1591):
insert inside a `try` catching `sqlite3.IntegrityError` as a 400.  Violable
constraints: UNIQUE(id_equipo, id_torneo) and both foreign keys.
`fecha_inscripcion` defaults to CURRENT_TIMESTAMP, passed as `now`. -/
def create_inscription (db : DB) (i : InscripcionCreate) (now : String) :
    Response Inscripcion × DB :=
  if (∃ x ∈ db.inscripciones, x.id_equipo = i.id_equipo ∧ x.id_torneo = i.id_torneo) ∨
     ¬ (∃ e ∈ db.equipos, e.id = i.id_equipo) ∨
     ¬ (∃ t ∈ db.torneos, t.id = i.id_torneo) then
    (.clientError, db)
  else
    let rid := db.seqInscripciones + 1
    let row : Inscripcion :=
      { id := rid, id_equipo := i.id_equipo, id_torneo := i.id_torneo,
        fecha_inscripcion := now }
    let db2 := { db with inscripciones := db.inscripciones ++ [row],
                         seqInscripciones := rid }
    (match findInscripcion db2 rid with
     | some r => .ok r
     | none => .serverError, db2)

/-- `GET /inscriptions/` (`list_inscriptions`, main.py lines 1601-1612). -/
def list_inscriptions (db : DB) : List Inscripcion :=
  db.inscripciones

/-- `DELETE /inscriptions/{insc_id}` (`delete_inscription`, main.py lines
1649-1669): plain delete; nothing references `inscripciones`. -/
def delete_inscription (db : DB) (insc_id : Nat) : Response Unit × DB :=
  if (db.inscripciones.filter (fun i => i.id == insc_id)).length = 0 then
    (.notFound, db)
  else
    (.ok (), { db with
      inscripciones := db.inscripciones.filter (fun i => i.id != insc_id) })

-- ————— Pagos endpoints (main.py lines 1673-1819) —————

/-- `POST /payments/` (`create_payment`, main.py lines 1715-1741): insert
inside a `try` catching `sqlite3.IntegrityError` as a 400.  Violable
constraints: both foreign keys, CHECK `monto_cent >= 0`, CHECK on `estado`.
`fecha_pago` defaults to CURRENT_TIMESTAMP, passed as `now`. -/
def create_payment (db : DB) (p : PagoCreate) (now : String) :
    Response Pago × DB :=
  if ¬ (∃ e ∈ db.equipos, e.id = p.id_equipo) ∨
     ¬ (∃ t ∈ db.torneos, t.id = p.id_torneo) ∨
     ¬ (0 ≤ p.monto_cent) ∨
     ¬ (p.estado = "pendiente" ∨ p.estado = "confirmado") then
    (.clientError, db)
  else
    let rid := db.seqPagos + 1
    let row : Pago :=
      { id := rid, id_equipo := p.id_equipo, id_torneo := p.id_torneo,
        monto_cent := p.monto_cent, estado := p.estado, fecha_pago := now }
    let db2 := { db with pagos := db.pagos ++ [row], seqPagos := rid }
    (match findPago db2 rid with
     | some r => .ok r
     | none => .serverError, db2)

/-- `GET /payments/` (`list_payments`, main.py lines 1751-1762). -/
def list_payments (db : DB) : List Pago :=
  db.pagos

/-- `DELETE /payments/{payment_id}` (`delete_payment`, main.py lines
1799-1819): plain delete; nothing references `pagos`. -/
def delete_payment (db : DB) (payment_id : Nat) : Response Unit × DB :=
  if (db.pagos.filter (fun p => p.id == payment_id)).length = 0 then
    (.notFound, db)
  else
    (.ok (), { db with pagos := db.pagos.filter (fun p => p.id != payment_id) })

-- ————— Partidos endpoints (main.py lines 1823-1980) —————

/-- `POST /matches/` (`create_match`, main.py lines 1873-1902): insert inside
a `try` catching `sqlite3.IntegrityError` as a 400.  Violable constraints:
the three foreign keys and CHECK `equipo_local <> equipo_visitante`. -/
def create_match (db : DB) (m : PartidoCreate) : Response Partido × DB :=
  if ¬ (∃ t ∈ db.torneos, t.id = m.id_torneo) ∨
     ¬ (∃ e ∈ db.equipos, e.id = m.equipo_local) ∨
     ¬ (∃ e ∈ db.equipos, e.id = m.equipo_visitante) ∨
     m.equipo_local = m.equipo_visitante then
    (.clientError, db)
  else
    let rid := db.seqPartidos + 1
    let row : Partido :=
      { id := rid, id_torneo := m.id_torneo, equipo_local := m.equipo_local,
        equipo_visitante := m.equipo_visitante, fecha := m.fecha,
        resultado_local := m.resultado_local,
        resultado_visitante := m.resultado_visitante }
    let db2 := { db with partidos := db.partidos ++ [row], seqPartidos := rid }
    (match findPartido db2 rid with
     | some r => .ok r
     | none => .serverError, db2)

/-- `GET /matches/` (`list_matches`, main.py lines 1912-1923). -/
def list_matches (db : DB) : List Partido :=
  db.partidos

/-- `DELETE /matches/{match_id}` (`delete_match`, main.py lines 1960-1980):
plain delete; nothing references `partidos`. -/
def delete_match (db : DB) (match_id : Nat) : Response Unit × DB :=
  if (db.partidos.filter (fun p => p.id == match_id)).length = 0 then
    (.notFound, db)
  else
    (.ok (), { db with partidos := db.partidos.filter (fun p => p.id != match_id) })

-- ————— Request step relation and invariants —————

/-- One HTTP request against the backend: the post-request committed state of
every endpoint that can touch the database, with arbitrary (shape-valid)
arguments.  The read-only list/get endpoints are omitted: they execute a
single SELECT on their own connection and return the same committed state. -/
inductive Step : DB → DB → Prop where
  | createUser (db : DB) (u : UsuarioCreate) (now : String) :
      Step db (create_user db u now).2
  | updateUser (db : DB) (uid : Nat) (u : UsuarioBase) :
      Step db (update_user db uid u).2
  | deleteUser (db : DB) (uid : Nat) :
      Step db (delete_user db uid).2
  | createTeam (db : DB) (t : EquipoBase) :
      Step db (create_team db t).2
  | updateTeam (db : DB) (tid : Nat) (t : EquipoBase) :
      Step db (update_team db tid t).2
  | deleteTeam (db : DB) (tid : Nat) :
      Step db (delete_team db tid).2
  | addMember (db : DB) (m : MiembroCreate) :
      Step db (add_member db m).2
  | deleteMember (db : DB) (mid : Nat) :
      Step db (delete_member db mid).2
  | createTournament (db : DB) (t : TorneoBase) :
      Step db (create_tournament db t).2
  | updateTournament (db : DB) (tid : Nat) (t : TorneoBase) :
      Step db (update_tournament db tid t).2
  | deleteTournament (db : DB) (tid : Nat) :
      Step db (delete_tournament db tid).2
  | createInscription (db : DB) (i : InscripcionCreate) (now : String) :
      Step db (create_inscription db i now).2
  | deleteInscription (db : DB) (iid : Nat) :
      Step db (delete_inscription db iid).2
  | createPayment (db : DB) (p : PagoCreate) (now : String) :
      Step db (create_payment db p now).2
  | deletePayment (db : DB) (pid : Nat) :
      Step db (delete_payment db pid).2
  | createMatch (db : DB) (m : PartidoCreate) :
      Step db (create_match db m).2
  | deleteMatch (db : DB) (mid : Nat) :
      Step db (delete_match db mid).2

/-- A database state reachable by some sequence of HTTP requests from the
freshly initialized database file. -/
def Reachable (db : DB) : Prop :=
  Relation.ReflTransGen Step DB.empty db

/-- No two distinct `miembros_equipo` rows are both `'capitan'` rows of the
same team: the property enforced by the partial unique index
`idx_unq_capitan_equipo`. -/
def capRel (a b : Miembro) : Prop :=
  ¬ (a.id_equipo = b.id_equipo ∧ a.rol = "capitan" ∧ b.rol = "capitan")

/-- Database-level statement of the one-captain-per-team invariant. -/
def capitanOK (db : DB) : Prop :=
  db.miembros.Pairwise capRel

/-- Number of `'capitan'`-role membership rows of team `e`. -/
def teamCapitanCount (db : DB) (e : Nat) : Nat :=
  (db.miembros.filter (fun x => x.id_equipo == e && x.rol == "capitan")).length

/-- Database-level statement of the `partidos` CHECK constraint
`equipo_local <> equipo_visitante`. -/
def partidosOK (db : DB) : Prop :=
  ∀ p ∈ db.partidos, p.equipo_local ≠ p.equipo_visitante

/-- `pwd_hash` blanked out of a stored user row. -/
def scrubUsuario (r : UsuarioRow) : UsuarioRow :=
  { r with pwd_hash := "" }

/-- The database with every stored password hash blanked out.  Endpoint
responses are invariant under this scrubbing exactly when they never
disclose a stored `pwd_hash`. -/
def scrubDB (db : DB) : DB :=
  { db with usuarios := db.usuarios.map scrubUsuario }

/-- A populated sample state: one user (id 1) who captains both teams, two
teams (ids 1, 2), one tournament (id 1) and one match of team 1 against
team 2. -/
def exDB : DB :=
  { usuarios := [⟨1, "Ana", "ana", "ana@example.com", "h", "t0"⟩],
    equipos := [⟨1, "Rojo", 1⟩, ⟨2, "Azul", 1⟩],
    miembros := [],
    torneos := [⟨1, "Copa", none, "t1", "t2", 8, "programado"⟩],
    inscripciones := [],
    pagos := [],
    partidos := [⟨1, 1, 1, 2, "t3", none, none⟩],
    seqUsuarios := 1, seqEquipos := 2, seqMiembros := 0, seqTorneos := 1,
    seqInscripciones := 0, seqPagos := 0, seqPartidos := 1 }

/-- A sample state with two users and one tournament but no teams, matches or
memberships. -/
def exDB2 : DB :=
  { usuarios := [⟨1, "Ana", "ana", "ana@example.com", "h", "t0"⟩,
                 ⟨2, "Luis", "luis", "luis@example.com", "h2", "t0"⟩],
    equipos := [],
    miembros := [],
    torneos := [⟨1, "Copa", none, "t1", "t2", 8, "programado"⟩],
    inscripciones := [],
    pagos := [],
    partidos := [],
    seqUsuarios := 2, seqEquipos := 0, seqMiembros := 0, seqTorneos := 1,
    seqInscripciones := 0, seqPagos := 0, seqPartidos := 0 }

-- ————— A concrete reachable state —————

/-- State after `POST /users/` (Ana) on the fresh database. -/
def dbA : DB :=
  { DB.empty with
    usuarios := [⟨1, "Ana", "ana", "ana@example.com", "h", "t0"⟩],
    seqUsuarios := 1 }

/-- State after `POST /teams/` (Rojo, captain 1) on `dbA`. -/
def dbB : DB :=
  { dbA with equipos := [⟨1, "Rojo", 1⟩], seqEquipos := 1 }

/-- State after `POST /teams/` (Azul, captain 1) on `dbB`. -/
def dbC : DB :=
  { dbB with equipos := [⟨1, "Rojo", 1⟩, ⟨2, "Azul", 1⟩], seqEquipos := 2 }

/-- State after `POST /tournaments/` (Copa) on `dbC`. -/
def dbD : DB :=
  { dbC with torneos := [⟨1, "Copa", none, "t1", "t2", 8, "programado"⟩],
             seqTorneos := 1 }

/-- State after `POST /matches/` (Rojo vs Azul) on `dbD`. -/
def dbE : DB :=
  { dbD with partidos := [⟨1, 1, 1, 2, "t3", none, none⟩], seqPartidos := 1 }

/-- State after `POST /members/` (Ana as captain of Rojo) on `dbE`. -/
def exDBr : DB :=
  { dbE with miembros := [⟨1, 1, 1, "capitan"⟩], seqMiembros := 1 }


/-- `exDBr` with its match deleted: team 1 is then referenced by no match. -/
def exDBdelMatch : DB :=
  { exDBr with partidos := [], seqPartidos := 1 }


-- ————— Generic list lemmas —————

/-- `fetchone` after appending a row whose search key is fresh returns
exactly the appended row. -/
lemma find_append_fresh {α : Type} (l : List α) (p : α → Bool) (x : α)
    (h1 : ∀ a ∈ l, ¬ p a) (h2 : p x) : (l ++ [x]).find? p = some x := by
  rw [List.find?_append, List.find?_eq_none.2 h1]
  simp [h2]

/-- A row matching the WHERE clause makes the statement's rowcount nonzero. -/
lemma filter_length_ne_zero {α : Type} {l : List α} {p : α → Bool}
    (h : ∃ x ∈ l, p x) : (l.filter p).length ≠ 0 := by
  obtain ⟨x, hx, hpx⟩ := h
  have hmem : x ∈ l.filter p := List.mem_filter.2 ⟨hx, hpx⟩
  intro h0
  rw [List.length_eq_zero] at h0
  rw [h0] at hmem
  exact (List.not_mem_nil x) hmem

/-- A list in which no two elements both satisfy `p` has at most one
element satisfying `p`. -/
lemma pairwise_filter_length_le_one {α : Type} {l : List α} {p : α → Bool}
    (h : l.Pairwise (fun a b => ¬ (p a = true ∧ p b = true))) :
    (l.filter p).length ≤ 1 := by
  induction l with
  | nil => simp
  | cons x xs ih =>
      rw [List.pairwise_cons] at h
      by_cases hx : p x
      · have hnil : xs.filter p = [] :=
          List.filter_eq_nil_iff.2 (fun a ha hpa => h.1 a ha ⟨hx, hpa⟩)
        simp [List.filter_cons, hx, hnil]
      · simpa [List.filter_cons, hx] using ih h.2

-- ————— Which tables each handler leaves untouched —————

lemma create_user_miembros (db : DB) (u : UsuarioCreate) (now : String) :
    (create_user db u now).2.miembros = db.miembros := by
  unfold create_user; split <;> rfl

lemma update_user_miembros (db : DB) (uid : Nat) (u : UsuarioBase) :
    (update_user db uid u).2.miembros = db.miembros := by
  unfold update_user; split_ifs <;> rfl

lemma create_team_miembros (db : DB) (t : EquipoBase) :
    (create_team db t).2.miembros = db.miembros := by
  unfold create_team; split <;> rfl

lemma update_team_miembros (db : DB) (tid : Nat) (t : EquipoBase) :
    (update_team db tid t).2.miembros = db.miembros := by
  unfold update_team; split_ifs <;> rfl

lemma create_tournament_miembros (db : DB) (t : TorneoBase) :
    (create_tournament db t).2.miembros = db.miembros := by
  unfold create_tournament; split <;> rfl

lemma update_tournament_miembros (db : DB) (tid : Nat) (t : TorneoBase) :
    (update_tournament db tid t).2.miembros = db.miembros := by
  unfold update_tournament; split_ifs <;> rfl

lemma delete_tournament_miembros (db : DB) (tid : Nat) :
    (delete_tournament db tid).2.miembros = db.miembros := by
  unfold delete_tournament; split_ifs <;> rfl

lemma create_inscription_miembros (db : DB) (i : InscripcionCreate) (now : String) :
    (create_inscription db i now).2.miembros = db.miembros := by
  unfold create_inscription; split <;> rfl

lemma delete_inscription_miembros (db : DB) (iid : Nat) :
    (delete_inscription db iid).2.miembros = db.miembros := by
  unfold delete_inscription; split_ifs <;> rfl

lemma create_payment_miembros (db : DB) (p : PagoCreate) (now : String) :
    (create_payment db p now).2.miembros = db.miembros := by
  unfold create_payment; split <;> rfl

lemma delete_payment_miembros (db : DB) (pid : Nat) :
    (delete_payment db pid).2.miembros = db.miembros := by
  unfold delete_payment; split_ifs <;> rfl

lemma create_match_miembros (db : DB) (m : PartidoCreate) :
    (create_match db m).2.miembros = db.miembros := by
  unfold create_match; split <;> rfl

lemma delete_match_miembros (db : DB) (mid : Nat) :
    (delete_match db mid).2.miembros = db.miembros := by
  unfold delete_match; split_ifs <;> rfl

lemma create_user_partidos (db : DB) (u : UsuarioCreate) (now : String) :
    (create_user db u now).2.partidos = db.partidos := by
  unfold create_user; split <;> rfl

lemma update_user_partidos (db : DB) (uid : Nat) (u : UsuarioBase) :
    (update_user db uid u).2.partidos = db.partidos := by
  unfold update_user; split_ifs <;> rfl

lemma delete_user_partidos (db : DB) (uid : Nat) :
    (delete_user db uid).2.partidos = db.partidos := by
  unfold delete_user; split_ifs <;> rfl

lemma create_team_partidos (db : DB) (t : EquipoBase) :
    (create_team db t).2.partidos = db.partidos := by
  unfold create_team; split <;> rfl

lemma update_team_partidos (db : DB) (tid : Nat) (t : EquipoBase) :
    (update_team db tid t).2.partidos = db.partidos := by
  unfold update_team; split_ifs <;> rfl

lemma delete_team_partidos (db : DB) (tid : Nat) :
    (delete_team db tid).2.partidos = db.partidos := by
  unfold delete_team; split_ifs <;> rfl

lemma add_member_partidos (db : DB) (m : MiembroCreate) :
    (add_member db m).2.partidos = db.partidos := by
  unfold add_member; split <;> rfl

lemma delete_member_partidos (db : DB) (mid : Nat) :
    (delete_member db mid).2.partidos = db.partidos := by
  unfold delete_member; split_ifs <;> rfl

lemma create_tournament_partidos (db : DB) (t : TorneoBase) :
    (create_tournament db t).2.partidos = db.partidos := by
  unfold create_tournament; split <;> rfl

lemma update_tournament_partidos (db : DB) (tid : Nat) (t : TorneoBase) :
    (update_tournament db tid t).2.partidos = db.partidos := by
  unfold update_tournament; split_ifs <;> rfl

lemma create_inscription_partidos (db : DB) (i : InscripcionCreate) (now : String) :
    (create_inscription db i now).2.partidos = db.partidos := by
  unfold create_inscription; split <;> rfl

lemma delete_inscription_partidos (db : DB) (iid : Nat) :
    (delete_inscription db iid).2.partidos = db.partidos := by
  unfold delete_inscription; split_ifs <;> rfl

lemma create_payment_partidos (db : DB) (p : PagoCreate) (now : String) :
    (create_payment db p now).2.partidos = db.partidos := by
  unfold create_payment; split <;> rfl

lemma delete_payment_partidos (db : DB) (pid : Nat) :
    (delete_payment db pid).2.partidos = db.partidos := by
  unfold delete_payment; split_ifs <;> rfl

-- ————— Preservation of the invariants by every request —————

/-- Every request preserves the one-captain-per-team property: the insert of
`add_member` is guarded by the partial unique index, and deletions only
remove membership rows. -/
lemma capitanOK_step {db db' : DB} (h : Step db db') (inv : capitanOK db) :
    capitanOK db' := by
  unfold capitanOK at *
  cases h with
  | createUser u now => rw [create_user_miembros]; exact inv
  | updateUser uid u => rw [update_user_miembros]; exact inv
  | deleteUser uid =>
      unfold delete_user
      split_ifs <;>
        first
          | exact inv
          | exact inv.sublist (List.filter_sublist _)
  | createTeam t => rw [create_team_miembros]; exact inv
  | updateTeam tid t => rw [update_team_miembros]; exact inv
  | deleteTeam tid =>
      unfold delete_team
      split_ifs <;>
        first
          | exact inv
          | exact inv.sublist (List.filter_sublist _)
  | addMember m =>
      unfold add_member
      split_ifs with hc
      · exact inv
      · push_neg at hc
        rw [List.pairwise_append]
        refine ⟨inv, List.pairwise_singleton _ _, ?_⟩
        intro a ha b hb
        rw [List.mem_singleton] at hb
        subst hb
        rintro ⟨heq, hacap, hbcap⟩
        exact hc.2.2.2.2 hbcap a ha (by simpa using heq) hacap
  | deleteMember mid =>
      unfold delete_member
      split_ifs <;>
        first
          | exact inv
          | exact inv.sublist (List.filter_sublist _)
  | createTournament t => rw [create_tournament_miembros]; exact inv
  | updateTournament tid t => rw [update_tournament_miembros]; exact inv
  | deleteTournament tid => rw [delete_tournament_miembros]; exact inv
  | createInscription i now => rw [create_inscription_miembros]; exact inv
  | deleteInscription iid => rw [delete_inscription_miembros]; exact inv
  | createPayment p now => rw [create_payment_miembros]; exact inv
  | deletePayment pid => rw [delete_payment_miembros]; exact inv
  | createMatch m => rw [create_match_miembros]; exact inv
  | deleteMatch mid => rw [delete_match_miembros]; exact inv

/-- Every request preserves the CHECK `equipo_local <> equipo_visitante`:
the only insert into `partidos` is guarded by the CHECK, and deletions only
remove match rows. -/
lemma partidosOK_step {db db' : DB} (h : Step db db') (inv : partidosOK db) :
    partidosOK db' := by
  unfold partidosOK at *
  cases h with
  | createUser u now => rw [create_user_partidos]; exact inv
  | updateUser uid u => rw [update_user_partidos]; exact inv
  | deleteUser uid => rw [delete_user_partidos]; exact inv
  | createTeam t => rw [create_team_partidos]; exact inv
  | updateTeam tid t => rw [update_team_partidos]; exact inv
  | deleteTeam tid => rw [delete_team_partidos]; exact inv
  | addMember m => rw [add_member_partidos]; exact inv
  | deleteMember mid => rw [delete_member_partidos]; exact inv
  | createTournament t => rw [create_tournament_partidos]; exact inv
  | updateTournament tid t => rw [update_tournament_partidos]; exact inv
  | deleteTournament tid =>
      unfold delete_tournament
      split_ifs
      · exact inv
      · intro p hp
        exact inv p (List.mem_of_mem_filter hp)
  | createInscription i now => rw [create_inscription_partidos]; exact inv
  | deleteInscription iid => rw [delete_inscription_partidos]; exact inv
  | createPayment p now => rw [create_payment_partidos]; exact inv
  | deletePayment pid => rw [delete_payment_partidos]; exact inv
  | createMatch m =>
      unfold create_match
      split_ifs with hc
      · exact inv
      · push_neg at hc
        intro p hp
        rw [List.mem_append, List.mem_singleton] at hp
        rcases hp with hp | hp
        · exact inv p hp
        · subst hp
          exact hc.2.2.2
  | deleteMatch mid =>
      unfold delete_match
      split_ifs
      · exact inv
      · intro p hp
        exact inv p (List.mem_of_mem_filter hp)

/-- Every reachable state satisfies the one-captain-per-team property. -/
lemma reachable_capitanOK {db : DB} (h : Reachable db) : capitanOK db := by
  have h' : Relation.ReflTransGen Step DB.empty db := h
  clear h
  induction h' with
  | refl => exact List.Pairwise.nil
  | tail _ s ih => exact capitanOK_step s ih

/-- Every reachable state satisfies the distinct-teams property of matches. -/
lemma reachable_partidosOK {db : DB} (h : Reachable db) : partidosOK db := by
  have h' : Relation.ReflTransGen Step DB.empty db := h
  clear h
  induction h' with
  | refl => intro p hp; exact absurd hp (List.not_mem_nil p)
  | tail _ s ih => exact partidosOK_step s ih

-- ————— Success characterizations of the create handlers —————

/-- Successful `create_user`: no stored row has the new email, and stored ids
are bounded by the AUTOINCREMENT sequence (as SQLite guarantees), so the
re-fetch by `lastrowid` returns the row just inserted. -/
lemma create_user_success {db : DB} {u : UsuarioCreate} {now : String}
    (hdup : ¬ ∃ r ∈ db.usuarios, r.email = u.email)
    (hwf : ∀ r ∈ db.usuarios, r.id ≤ db.seqUsuarios) :
    create_user db u now =
      (.ok { id := db.seqUsuarios + 1, nombre := u.nombre,
             nickname := u.nickname, email := u.email, fecha_reg := now },
       { db with
          usuarios := db.usuarios ++
            [{ id := db.seqUsuarios + 1, nombre := u.nombre,
               nickname := u.nickname, email := u.email,
               pwd_hash := u.pwd_hash, fecha_reg := now }],
          seqUsuarios := db.seqUsuarios + 1 }) := by
  have hfind :
      findUsuario
        { db with
            usuarios := db.usuarios ++
              [{ id := db.seqUsuarios + 1, nombre := u.nombre,
                 nickname := u.nickname, email := u.email,
                 pwd_hash := u.pwd_hash, fecha_reg := now }],
            seqUsuarios := db.seqUsuarios + 1 }
        (db.seqUsuarios + 1) =
      some { id := db.seqUsuarios + 1, nombre := u.nombre,
             nickname := u.nickname, email := u.email,
             pwd_hash := u.pwd_hash, fecha_reg := now } := by
    unfold findUsuario
    refine find_append_fresh _ _ _ (fun a ha => ?_) (by simp)
    have := hwf a ha
    simp only [beq_iff_eq]
    omega
  simp only [create_user, if_neg hdup]
  rw [hfind]
  rfl

/-- Successful `create_team`: fresh name, existing captain, bounded ids. -/
lemma create_team_success {db : DB} {t : EquipoBase}
    (hname : ¬ ∃ e ∈ db.equipos, e.nombre = t.nombre)
    (hcap : ∃ r ∈ db.usuarios, r.id = t.id_capitan)
    (hwf : ∀ e ∈ db.equipos, e.id ≤ db.seqEquipos) :
    create_team db t =
      (.ok { id := db.seqEquipos + 1, nombre := t.nombre, id_capitan := t.id_capitan },
       { db with
          equipos := db.equipos ++
            [{ id := db.seqEquipos + 1, nombre := t.nombre, id_capitan := t.id_capitan }],
          seqEquipos := db.seqEquipos + 1 }) := by
  have hfind :
      findEquipo
        { db with
            equipos := db.equipos ++
              [{ id := db.seqEquipos + 1, nombre := t.nombre, id_capitan := t.id_capitan }],
            seqEquipos := db.seqEquipos + 1 }
        (db.seqEquipos + 1) =
      some { id := db.seqEquipos + 1, nombre := t.nombre, id_capitan := t.id_capitan } := by
    unfold findEquipo
    refine find_append_fresh _ _ _ (fun a ha => ?_) (by simp)
    have := hwf a ha
    simp only [beq_iff_eq]
    omega
  simp only [create_team, if_neg (not_or.mpr ⟨hname, not_not_intro hcap⟩)]
  rw [hfind]

/-- Successful `add_member`: valid role, fresh (team, user) pair, existing
team and user, no competing captain row, bounded ids. -/
lemma add_member_success {db : DB} {m : MiembroCreate}
    (hrol : m.rol = "jugador" ∨ m.rol = "capitan" ∨ m.rol = "suplente")
    (hdup : ¬ ∃ x ∈ db.miembros, x.id_equipo = m.id_equipo ∧ x.id_usuario = m.id_usuario)
    (heq : ∃ e ∈ db.equipos, e.id = m.id_equipo)
    (hus : ∃ r ∈ db.usuarios, r.id = m.id_usuario)
    (hcap : ¬ (m.rol = "capitan" ∧
               ∃ x ∈ db.miembros, x.id_equipo = m.id_equipo ∧ x.rol = "capitan"))
    (hwf : ∀ x ∈ db.miembros, x.id ≤ db.seqMiembros) :
    add_member db m =
      (.ok { id := db.seqMiembros + 1, id_equipo := m.id_equipo,
             id_usuario := m.id_usuario, rol := m.rol },
       { db with
          miembros := db.miembros ++
            [{ id := db.seqMiembros + 1, id_equipo := m.id_equipo,
               id_usuario := m.id_usuario, rol := m.rol }],
          seqMiembros := db.seqMiembros + 1 }) := by
  have hfind :
      findMiembro
        { db with
            miembros := db.miembros ++
              [{ id := db.seqMiembros + 1, id_equipo := m.id_equipo,
                 id_usuario := m.id_usuario, rol := m.rol }],
            seqMiembros := db.seqMiembros + 1 }
        (db.seqMiembros + 1) =
      some { id := db.seqMiembros + 1, id_equipo := m.id_equipo,
             id_usuario := m.id_usuario, rol := m.rol } := by
    unfold findMiembro
    refine find_append_fresh _ _ _ (fun a ha => ?_) (by simp)
    have := hwf a ha
    simp only [beq_iff_eq]
    omega
  simp only [add_member,
    if_neg (not_or.mpr ⟨not_not_intro hrol, not_or.mpr ⟨hdup,
      not_or.mpr ⟨not_not_intro heq, not_or.mpr ⟨not_not_intro hus, hcap⟩⟩⟩⟩)]
  rw [hfind]

/-- Successful `create_tournament`: shape-valid payload, bounded ids. -/
lemma create_tournament_success {db : DB} {t : TorneoBase}
    (hmax : 0 < t.max_equipos)
    (hest : t.estado = "programado" ∨ t.estado = "en_curso" ∨ t.estado = "finalizado")
    (hwf : ∀ x ∈ db.torneos, x.id ≤ db.seqTorneos) :
    create_tournament db t =
      (.ok { id := db.seqTorneos + 1, nombre := t.nombre, descripcion := t.descripcion,
             fecha_inicio := t.fecha_inicio, fecha_fin := t.fecha_fin,
             max_equipos := t.max_equipos, estado := t.estado },
       { db with
          torneos := db.torneos ++
            [{ id := db.seqTorneos + 1, nombre := t.nombre, descripcion := t.descripcion,
               fecha_inicio := t.fecha_inicio, fecha_fin := t.fecha_fin,
               max_equipos := t.max_equipos, estado := t.estado }],
          seqTorneos := db.seqTorneos + 1 }) := by
  have hfind :
      findTorneo
        { db with
            torneos := db.torneos ++
              [{ id := db.seqTorneos + 1, nombre := t.nombre, descripcion := t.descripcion,
                 fecha_inicio := t.fecha_inicio, fecha_fin := t.fecha_fin,
                 max_equipos := t.max_equipos, estado := t.estado }],
            seqTorneos := db.seqTorneos + 1 }
        (db.seqTorneos + 1) =
      some { id := db.seqTorneos + 1, nombre := t.nombre, descripcion := t.descripcion,
             fecha_inicio := t.fecha_inicio, fecha_fin := t.fecha_fin,
             max_equipos := t.max_equipos, estado := t.estado } := by
    unfold findTorneo
    refine find_append_fresh _ _ _ (fun a ha => ?_) (by simp)
    have := hwf a ha
    simp only [beq_iff_eq]
    omega
  simp only [create_tournament,
    if_neg (not_or.mpr ⟨not_not_intro hmax, not_not_intro hest⟩)]
  rw [hfind]

/-- Successful `create_inscription`: fresh (team, tournament) pair, existing
team and tournament, bounded ids. -/
lemma create_inscription_success {db : DB} {i : InscripcionCreate} {now : String}
    (hdup : ¬ ∃ x ∈ db.inscripciones, x.id_equipo = i.id_equipo ∧ x.id_torneo = i.id_torneo)
    (heq : ∃ e ∈ db.equipos, e.id = i.id_equipo)
    (htor : ∃ t ∈ db.torneos, t.id = i.id_torneo)
    (hwf : ∀ x ∈ db.inscripciones, x.id ≤ db.seqInscripciones) :
    create_inscription db i now =
      (.ok { id := db.seqInscripciones + 1, id_equipo := i.id_equipo,
             id_torneo := i.id_torneo, fecha_inscripcion := now },
       { db with
          inscripciones := db.inscripciones ++
            [{ id := db.seqInscripciones + 1, id_equipo := i.id_equipo,
               id_torneo := i.id_torneo, fecha_inscripcion := now }],
          seqInscripciones := db.seqInscripciones + 1 }) := by
  have hfind :
      findInscripcion
        { db with
            inscripciones := db.inscripciones ++
              [{ id := db.seqInscripciones + 1, id_equipo := i.id_equipo,
                 id_torneo := i.id_torneo, fecha_inscripcion := now }],
            seqInscripciones := db.seqInscripciones + 1 }
        (db.seqInscripciones + 1) =
      some { id := db.seqInscripciones + 1, id_equipo := i.id_equipo,
             id_torneo := i.id_torneo, fecha_inscripcion := now } := by
    unfold findInscripcion
    refine find_append_fresh _ _ _ (fun a ha => ?_) (by simp)
    have := hwf a ha
    simp only [beq_iff_eq]
    omega
  simp only [create_inscription,
    if_neg (not_or.mpr ⟨hdup, not_or.mpr ⟨not_not_intro heq, not_not_intro htor⟩⟩)]
  rw [hfind]

/-- Successful `create_payment`: existing team and tournament, shape-valid
amount and status, bounded ids. -/
lemma create_payment_success {db : DB} {p : PagoCreate} {now : String}
    (heq : ∃ e ∈ db.equipos, e.id = p.id_equipo)
    (htor : ∃ t ∈ db.torneos, t.id = p.id_torneo)
    (hmon : 0 ≤ p.monto_cent)
    (hest : p.estado = "pendiente" ∨ p.estado = "confirmado")
    (hwf : ∀ x ∈ db.pagos, x.id ≤ db.seqPagos) :
    create_payment db p now =
      (.ok { id := db.seqPagos + 1, id_equipo := p.id_equipo, id_torneo := p.id_torneo,
             monto_cent := p.monto_cent, estado := p.estado, fecha_pago := now },
       { db with
          pagos := db.pagos ++
            [{ id := db.seqPagos + 1, id_equipo := p.id_equipo, id_torneo := p.id_torneo,
               monto_cent := p.monto_cent, estado := p.estado, fecha_pago := now }],
          seqPagos := db.seqPagos + 1 }) := by
  have hfind :
      findPago
        { db with
            pagos := db.pagos ++
              [{ id := db.seqPagos + 1, id_equipo := p.id_equipo, id_torneo := p.id_torneo,
                 monto_cent := p.monto_cent, estado := p.estado, fecha_pago := now }],
            seqPagos := db.seqPagos + 1 }
        (db.seqPagos + 1) =
      some { id := db.seqPagos + 1, id_equipo := p.id_equipo, id_torneo := p.id_torneo,
             monto_cent := p.monto_cent, estado := p.estado, fecha_pago := now } := by
    unfold findPago
    refine find_append_fresh _ _ _ (fun a ha => ?_) (by simp)
    have := hwf a ha
    simp only [beq_iff_eq]
    omega
  simp only [create_payment,
    if_neg (not_or.mpr ⟨not_not_intro heq, not_or.mpr ⟨not_not_intro htor,
      not_or.mpr ⟨not_not_intro hmon, not_not_intro hest⟩⟩⟩)]
  rw [hfind]

/-- Successful `create_match`: existing tournament and teams, distinct home
and away team, bounded ids. -/
lemma create_match_success {db : DB} {m : PartidoCreate}
    (htor : ∃ t ∈ db.torneos, t.id = m.id_torneo)
    (hloc : ∃ e ∈ db.equipos, e.id = m.equipo_local)
    (hvis : ∃ e ∈ db.equipos, e.id = m.equipo_visitante)
    (hne : m.equipo_local ≠ m.equipo_visitante)
    (hwf : ∀ x ∈ db.partidos, x.id ≤ db.seqPartidos) :
    create_match db m =
      (.ok { id := db.seqPartidos + 1, id_torneo := m.id_torneo,
             equipo_local := m.equipo_local, equipo_visitante := m.equipo_visitante,
             fecha := m.fecha, resultado_local := m.resultado_local,
             resultado_visitante := m.resultado_visitante },
       { db with
          partidos := db.partidos ++
            [{ id := db.seqPartidos + 1, id_torneo := m.id_torneo,
               equipo_local := m.equipo_local, equipo_visitante := m.equipo_visitante,
               fecha := m.fecha, resultado_local := m.resultado_local,
               resultado_visitante := m.resultado_visitante }],
          seqPartidos := db.seqPartidos + 1 }) := by
  have hfind :
      findPartido
        { db with
            partidos := db.partidos ++
              [{ id := db.seqPartidos + 1, id_torneo := m.id_torneo,
                 equipo_local := m.equipo_local, equipo_visitante := m.equipo_visitante,
                 fecha := m.fecha, resultado_local := m.resultado_local,
                 resultado_visitante := m.resultado_visitante }],
            seqPartidos := db.seqPartidos + 1 }
        (db.seqPartidos + 1) =
      some { id := db.seqPartidos + 1, id_torneo := m.id_torneo,
             equipo_local := m.equipo_local, equipo_visitante := m.equipo_visitante,
             fecha := m.fecha, resultado_local := m.resultado_local,
             resultado_visitante := m.resultado_visitante } := by
    unfold findPartido
    refine find_append_fresh _ _ _ (fun a ha => ?_) (by simp)
    have := hwf a ha
    simp only [beq_iff_eq]
    omega
  simp only [create_match,
    if_neg (not_or.mpr ⟨not_not_intro htor, not_or.mpr ⟨not_not_intro hloc,
      not_or.mpr ⟨not_not_intro hvis, hne⟩⟩⟩)]
  rw [hfind]

/-- `exDBr` is produced by an actual request sequence from the fresh
database: create user, two teams, a tournament, a match, and a captain
membership. -/
lemma reachable_exDBr : Reachable exDBr := by
  have s1 : Step DB.empty dbA := by
    have h := Step.createUser DB.empty ⟨"Ana", "ana", "ana@example.com", "h"⟩ "t0"
    have e : (create_user DB.empty ⟨"Ana", "ana", "ana@example.com", "h"⟩ "t0").2 = dbA := by
      decide
    rwa [e] at h
  have s2 : Step dbA dbB := by
    have h := Step.createTeam dbA ⟨"Rojo", 1⟩
    have e : (create_team dbA ⟨"Rojo", 1⟩).2 = dbB := by decide
    rwa [e] at h
  have s3 : Step dbB dbC := by
    have h := Step.createTeam dbB ⟨"Azul", 1⟩
    have e : (create_team dbB ⟨"Azul", 1⟩).2 = dbC := by decide
    rwa [e] at h
  have s4 : Step dbC dbD := by
    have h := Step.createTournament dbC ⟨"Copa", none, "t1", "t2", 8, "programado"⟩
    have e : (create_tournament dbC ⟨"Copa", none, "t1", "t2", 8, "programado"⟩).2 = dbD := by
      decide
    rwa [e] at h
  have s5 : Step dbD dbE := by
    have h := Step.createMatch dbD ⟨1, 1, 2, "t3", none, none⟩
    have e : (create_match dbD ⟨1, 1, 2, "t3", none, none⟩).2 = dbE := by decide
    rwa [e] at h
  have s6 : Step dbE exDBr := by
    have h := Step.addMember dbE ⟨1, 1, "capitan"⟩
    have e : (add_member dbE ⟨1, 1, "capitan"⟩).2 = exDBr := by decide
    rwa [e] at h
  exact Relation.ReflTransGen.refl
    |>.tail s1 |>.tail s2 |>.tail s3 |>.tail s4 |>.tail s5 |>.tail s6

-- ————— Claim theorems —————

/-- C5: a create-user request whose email equals a stored user's email is
answered with the 400 client error and adds no row (state unchanged); a
request whose email differs from every stored email (shape validation being
encoded in the `UsuarioCreate` input type) succeeds and returns the created
user.  The success direction assumes the stored ids are bounded by the
AUTOINCREMENT sequence counter, which SQLite guarantees for every actual
database file. -/
theorem C5_create_user_email :
    (∀ (db : DB) (u : UsuarioCreate) (now : String),
        (∃ r ∈ db.usuarios, r.email = u.email) →
        create_user db u now = (.clientError, db)) ∧
    (∀ (db : DB) (u : UsuarioCreate) (now : String),
        (∀ x ∈ db.usuarios, x.id ≤ db.seqUsuarios) →
        (∀ x ∈ db.usuarios, x.email ≠ u.email) →
        create_user db u now =
          (.ok { id := db.seqUsuarios + 1, nombre := u.nombre,
                 nickname := u.nickname, email := u.email, fecha_reg := now },
           { db with
              usuarios := db.usuarios ++
                [{ id := db.seqUsuarios + 1, nombre := u.nombre,
                   nickname := u.nickname, email := u.email,
                   pwd_hash := u.pwd_hash, fecha_reg := now }],
              seqUsuarios := db.seqUsuarios + 1 })) := by
  constructor
  · intro db u now h
    simp only [create_user, if_pos h]
  · intro db u now hwf hfresh
    exact create_user_success (by push_neg; exact hfresh) hwf

/-- Witness for C5 at a concrete state: duplicating Ana's email fails with
the client error, a fresh email succeeds and returns the created user. -/
theorem C5_create_user_email_witness :
    create_user exDB2 ⟨"Eva", "eva", "ana@example.com", "h3"⟩ "t9"
      = (.clientError, exDB2) ∧
    (create_user exDB2 ⟨"Eva", "eva", "eva@example.com", "h3"⟩ "t9").1
      = .ok ⟨3, "Eva", "eva", "eva@example.com", "t9"⟩ := by
  constructor
  · exact C5_create_user_email.1 exDB2 _ _ (by decide)
  · rw [C5_create_user_email.2 exDB2 ⟨"Eva", "eva", "eva@example.com", "h3"⟩ "t9"
      (by decide) (by decide)]
    rfl

/-- C8: a create-match request whose home team id equals its away team id is
rejected by the CHECK constraint, caught and answered with the 400 client
error, leaving the state unchanged; and in every reachable state every
stored match has distinct home and away team ids. -/
theorem C8_match_distinct_teams :
    (∀ (db : DB) (m : PartidoCreate),
        m.equipo_local = m.equipo_visitante →
        create_match db m = (.clientError, db)) ∧
    (∀ db : DB, Reachable db →
        ∀ p ∈ db.partidos, p.equipo_local ≠ p.equipo_visitante) := by
  constructor
  · intro db m h
    simp only [create_match, if_pos (Or.inr (Or.inr (Or.inr h)))]
  · intro db h
    exact reachable_partidosOK h

/-- Witness for C8: a Rojo-vs-Rojo match is rejected on the concrete state
`exDB`, and the invariant holds of the concretely reached state `exDBr`. -/
theorem C8_match_distinct_teams_witness :
    create_match exDB ⟨1, 1, 1, "t4", none, none⟩ = (.clientError, exDB) ∧
    ∀ p ∈ exDBr.partidos, p.equipo_local ≠ p.equipo_visitante :=
  ⟨C8_match_distinct_teams.1 exDB ⟨1, 1, 1, "t4", none, none⟩ rfl,
   C8_match_distinct_teams.2 exDBr reachable_exDBr⟩

/-- C2: deleting a team that is the home or away team of some match hits the
ON DELETE RESTRICT foreign key; the resulting `sqlite3.IntegrityError` is
not caught, the request fails (as an unstructured failure) and the committed
state — in particular the team row and the match rows — is unchanged.
Deleting a team referenced by no match removes the team row and cascades
away its memberships, enrollments and payments, leaving the other tables
untouched. -/
theorem C2_delete_team_restrict_cascade :
    (∀ (db : DB) (tid : Nat),
        (∃ e ∈ db.equipos, e.id = tid) →
        (∃ p ∈ db.partidos, p.equipo_local = tid ∨ p.equipo_visitante = tid) →
        delete_team db tid = (.serverError, db)) ∧
    (∀ (db : DB) (tid : Nat),
        (∃ e ∈ db.equipos, e.id = tid) →
        (¬ ∃ p ∈ db.partidos, p.equipo_local = tid ∨ p.equipo_visitante = tid) →
        delete_team db tid =
          (.ok (), { db with
             equipos := db.equipos.filter (fun e => e.id != tid),
             miembros := db.miembros.filter (fun m => m.id_equipo != tid),
             inscripciones := db.inscripciones.filter (fun i => i.id_equipo != tid),
             pagos := db.pagos.filter (fun p => p.id_equipo != tid) })) := by
  constructor
  · intro db tid h1 h2
    simp only [delete_team, if_pos (And.intro h1 h2)]
  · intro db tid h1 h2
    have hrc : (db.equipos.filter (fun e => e.id == tid)).length ≠ 0 := by
      refine filter_length_ne_zero ?_
      obtain ⟨e, he, hid⟩ := h1
      exact ⟨e, he, by simpa using hid⟩
    have hnc : ¬ ((∃ e ∈ db.equipos, e.id = tid) ∧
        ∃ p ∈ db.partidos, p.equipo_local = tid ∨ p.equipo_visitante = tid) :=
      fun hc => h2 hc.2
    simp only [delete_team, if_neg hnc, if_neg hrc]

/-- Witness for C2: on `exDB`, team 1 plays in match 1 so deleting it fails
uncaught and changes nothing; on `exDBdelMatch` (team 1 referenced by no
match), deleting team 1 removes the team and its captain membership. -/
theorem C2_delete_team_restrict_cascade_witness :
    delete_team exDB 1 = (.serverError, exDB) ∧
    delete_team exDBdelMatch 1 =
      (.ok (), { exDBdelMatch with equipos := [⟨2, "Azul", 1⟩], miembros := [] }) := by
  constructor
  · exact C2_delete_team_restrict_cascade.1 exDB 1 (by decide) (by decide)
  · have h := C2_delete_team_restrict_cascade.2 exDBdelMatch 1 (by decide) (by decide)
    rw [h]
    decide

/-- C3: deleting an existing tournament succeeds (204), removes the
tournament row, cascades away exactly the enrollments, payments and matches
of that tournament, and leaves other tournaments and the `usuarios`,
`equipos` and `miembros_equipo` tables unchanged. -/
theorem C3_delete_tournament_cascade :
    ∀ (db : DB) (tid : Nat),
      (∃ t ∈ db.torneos, t.id = tid) →
      delete_tournament db tid =
        (.ok (), { db with
           torneos := db.torneos.filter (fun t => t.id != tid),
           inscripciones := db.inscripciones.filter (fun i => i.id_torneo != tid),
           pagos := db.pagos.filter (fun p => p.id_torneo != tid),
           partidos := db.partidos.filter (fun p => p.id_torneo != tid) }) ∧
      (∀ i : Inscripcion, i ∈ (delete_tournament db tid).2.inscripciones ↔
          i ∈ db.inscripciones ∧ i.id_torneo ≠ tid) ∧
      (∀ p : Pago, p ∈ (delete_tournament db tid).2.pagos ↔
          p ∈ db.pagos ∧ p.id_torneo ≠ tid) ∧
      (∀ p : Partido, p ∈ (delete_tournament db tid).2.partidos ↔
          p ∈ db.partidos ∧ p.id_torneo ≠ tid) ∧
      (∀ t : Torneo, t ∈ (delete_tournament db tid).2.torneos ↔
          t ∈ db.torneos ∧ t.id ≠ tid) ∧
      (delete_tournament db tid).2.usuarios = db.usuarios ∧
      (delete_tournament db tid).2.equipos = db.equipos ∧
      (delete_tournament db tid).2.miembros = db.miembros := by
  intro db tid hex
  have hrc : (db.torneos.filter (fun t => t.id == tid)).length ≠ 0 := by
    refine filter_length_ne_zero ?_
    obtain ⟨t, ht, hid⟩ := hex
    exact ⟨t, ht, by simpa using hid⟩
  have heq : delete_tournament db tid =
      (.ok (), { db with
         torneos := db.torneos.filter (fun t => t.id != tid),
         inscripciones := db.inscripciones.filter (fun i => i.id_torneo != tid),
         pagos := db.pagos.filter (fun p => p.id_torneo != tid),
         partidos := db.partidos.filter (fun p => p.id_torneo != tid) }) := by
    simp only [delete_tournament, if_neg hrc]
  refine ⟨heq, ?_, ?_, ?_, ?_, ?_, ?_, ?_⟩ <;> rw [heq]
  · intro i; simp [List.mem_filter]
  · intro p; simp [List.mem_filter]
  · intro p; simp [List.mem_filter]
  · intro t; simp [List.mem_filter]

/-- Witness for C3: deleting tournament 1 of `exDBr` removes its match and
keeps users, teams and memberships. -/
theorem C3_delete_tournament_cascade_witness :
    delete_tournament exDBr 1 =
      (.ok (), { exDBr with torneos := [], partidos := [] }) ∧
    (∀ p : Partido, p ∈ (delete_tournament exDBr 1).2.partidos ↔
        p ∈ exDBr.partidos ∧ p.id_torneo ≠ 1) := by
  have h := C3_delete_tournament_cascade exDBr 1 (by decide)
  constructor
  · rw [h.1]; decide
  · exact h.2.2.2.1

/-- C4: in every reachable state each team has at most one membership row
with role `'capitan'`; a second captain membership for a team that already
has one is rejected with the 400 client error and changes nothing; a captain
membership for a team that has none succeeds (given that the team and user
exist, the (team, user) pair is new — the insert's other constraints — and
ids are bounded by the AUTOINCREMENT sequence) and returns the created
membership row. -/
theorem C4_one_capitan_per_team :
    (∀ db : DB, Reachable db → ∀ e : Nat, teamCapitanCount db e ≤ 1) ∧
    (∀ (db : DB) (m : MiembroCreate),
        m.rol = "capitan" →
        (∃ x ∈ db.miembros, x.id_equipo = m.id_equipo ∧ x.rol = "capitan") →
        add_member db m = (.clientError, db)) ∧
    (∀ (db : DB) (m : MiembroCreate),
        m.rol = "capitan" →
        (∃ e ∈ db.equipos, e.id = m.id_equipo) →
        (∃ r ∈ db.usuarios, r.id = m.id_usuario) →
        (¬ ∃ x ∈ db.miembros, x.id_equipo = m.id_equipo ∧ x.id_usuario = m.id_usuario) →
        (¬ ∃ x ∈ db.miembros, x.id_equipo = m.id_equipo ∧ x.rol = "capitan") →
        (∀ x ∈ db.miembros, x.id ≤ db.seqMiembros) →
        (add_member db m).1 =
          .ok { id := db.seqMiembros + 1, id_equipo := m.id_equipo,
                id_usuario := m.id_usuario, rol := m.rol }) := by
  refine ⟨?_, ?_, ?_⟩
  · intro db h e
    have inv : capitanOK db := reachable_capitanOK h
    unfold teamCapitanCount
    refine pairwise_filter_length_le_one (List.Pairwise.imp ?_ inv)
    intro a b hab hpab
    obtain ⟨hpa, hpb⟩ := hpab
    simp only [Bool.and_eq_true, beq_iff_eq] at hpa hpb
    exact hab ⟨hpa.1.trans hpb.1.symm, hpa.2, hpb.2⟩
  · intro db m hrol hcap
    simp only [add_member,
      if_pos (Or.inr (Or.inr (Or.inr (Or.inr (And.intro hrol hcap)))))]
  · intro db m hrol heq hus hdup hcap hwf
    rw [add_member_success (Or.inr (Or.inl hrol)) hdup heq hus
      (fun hc => hcap hc.2) hwf]

/-- Witness for C4 at the concretely reached state `exDBr` (team 1 has a
captain, team 2 has none): the count bound, a rejected second captain for
team 1, and a successful captain membership for team 2. -/
theorem C4_one_capitan_per_team_witness :
    teamCapitanCount exDBr 1 ≤ 1 ∧
    add_member exDBr ⟨1, 1, "capitan"⟩ = (.clientError, exDBr) ∧
    (add_member exDBr ⟨2, 1, "capitan"⟩).1 = .ok ⟨2, 2, 1, "capitan"⟩ := by
  refine ⟨C4_one_capitan_per_team.1 exDBr reachable_exDBr 1,
    C4_one_capitan_per_team.2.1 exDBr ⟨1, 1, "capitan"⟩ rfl (by decide), ?_⟩
  rw [C4_one_capitan_per_team.2.2 exDBr ⟨2, 1, "capitan"⟩ rfl (by decide) (by decide)
    (by decide) (by decide) (by decide)]
  rfl

/-- C7: for users, teams and tournaments, the get-by-id endpoint never
modifies the committed state, answers 404 exactly when no stored row has the
path id, and otherwise returns the stored row fetched by the id (for users,
projected to the `Usuario` response schema, which drops `pwd_hash`). -/
theorem C7_get_by_id :
    (∀ (db : DB) (i : Nat),
        (get_user db i).2 = db ∧
        ((get_user db i).1 = .notFound ↔ ¬ ∃ r ∈ db.usuarios, r.id = i) ∧
        (∀ row, findUsuario db i = some row →
          (get_user db i).1 = .ok (usuarioOut row))) ∧
    (∀ (db : DB) (i : Nat),
        (get_team db i).2 = db ∧
        ((get_team db i).1 = .notFound ↔ ¬ ∃ e ∈ db.equipos, e.id = i) ∧
        (∀ row, findEquipo db i = some row → (get_team db i).1 = .ok row)) ∧
    (∀ (db : DB) (i : Nat),
        (get_tournament db i).2 = db ∧
        ((get_tournament db i).1 = .notFound ↔ ¬ ∃ t ∈ db.torneos, t.id = i) ∧
        (∀ row, findTorneo db i = some row → (get_tournament db i).1 = .ok row)) := by
  refine ⟨?_, ?_, ?_⟩
  · intro db i
    cases hf : findUsuario db i with
    | none =>
        have hnone : ∀ r ∈ db.usuarios, ¬ (r.id == i) := List.find?_eq_none.1 hf
        refine ⟨by simp [get_user, hf], ?_, ?_⟩
        · simp only [get_user, hf]
          refine iff_of_true trivial ?_
          rintro ⟨r, hr, hid⟩
          exact hnone r hr (by simpa using hid)
        · intro row hrow
          exact absurd hrow (by simp)
    | some row =>
        have hmem : row ∈ db.usuarios := List.mem_of_find?_eq_some hf
        have hid : row.id = i := by have := List.find?_some hf; simpa using this
        refine ⟨by simp [get_user, hf], ?_, ?_⟩
        · simp only [get_user, hf]
          exact iff_of_false (by simp) (not_not_intro ⟨row, hmem, hid⟩)
        · intro row2 hrow2
          injection hrow2 with h2
          subst h2
          simp [get_user, hf]
  · intro db i
    cases hf : findEquipo db i with
    | none =>
        have hnone : ∀ r ∈ db.equipos, ¬ (r.id == i) := List.find?_eq_none.1 hf
        refine ⟨by simp [get_team, hf], ?_, ?_⟩
        · simp only [get_team, hf]
          refine iff_of_true trivial ?_
          rintro ⟨r, hr, hid⟩
          exact hnone r hr (by simpa using hid)
        · intro row hrow
          exact absurd hrow (by simp)
    | some row =>
        have hmem : row ∈ db.equipos := List.mem_of_find?_eq_some hf
        have hid : row.id = i := by have := List.find?_some hf; simpa using this
        refine ⟨by simp [get_team, hf], ?_, ?_⟩
        · simp only [get_team, hf]
          exact iff_of_false (by simp) (not_not_intro ⟨row, hmem, hid⟩)
        · intro row2 hrow2
          injection hrow2 with h2
          subst h2
          simp [get_team, hf]
  · intro db i
    cases hf : findTorneo db i with
    | none =>
        have hnone : ∀ r ∈ db.torneos, ¬ (r.id == i) := List.find?_eq_none.1 hf
        refine ⟨by simp [get_tournament, hf], ?_, ?_⟩
        · simp only [get_tournament, hf]
          refine iff_of_true trivial ?_
          rintro ⟨r, hr, hid⟩
          exact hnone r hr (by simpa using hid)
        · intro row hrow
          exact absurd hrow (by simp)
    | some row =>
        have hmem : row ∈ db.torneos := List.mem_of_find?_eq_some hf
        have hid : row.id = i := by have := List.find?_some hf; simpa using this
        refine ⟨by simp [get_tournament, hf], ?_, ?_⟩
        · simp only [get_tournament, hf]
          exact iff_of_false (by simp) (not_not_intro ⟨row, hmem, hid⟩)
        · intro row2 hrow2
          injection hrow2 with h2
          subst h2
          simp [get_tournament, hf]

/-- Witness for C7 at `exDBr`: fetching stored user 1 returns the stored row
without the password hash, fetching absent team 9 is a 404, and both leave
the state unchanged. -/
theorem C7_get_by_id_witness :
    (get_user exDBr 1).2 = exDBr ∧
    (get_user exDBr 1).1 = .ok ⟨1, "Ana", "ana", "ana@example.com", "t0"⟩ ∧
    ((get_team exDBr 9).1 = .notFound ↔ ¬ ∃ e ∈ exDBr.equipos, e.id = 9) := by
  refine ⟨(C7_get_by_id.1 exDBr 1).1, ?_, (C7_get_by_id.2.1 exDBr 9).2.1⟩
  exact (C7_get_by_id.1 exDBr 1).2.2 ⟨1, "Ana", "ana", "ana@example.com", "h", "t0"⟩
    (by decide)

/-- C6: every successful create responds with exactly the row stored under
the newly assigned id (each handler re-fetches the inserted row by
`lastrowid`), projected to the response schema (which for users drops
`pwd_hash`); and for the entities that have a get-by-id endpoint (users,
teams, tournaments) a subsequent get-by-id with that id returns the same
entity data.  All parts assume stored ids are bounded by the table's
AUTOINCREMENT sequence, as SQLite guarantees. -/
theorem C6_create_roundtrip :
    (∀ (db : DB) (u : UsuarioCreate) (now : String) (r : Usuario) (db2 : DB),
        (∀ x ∈ db.usuarios, x.id ≤ db.seqUsuarios) →
        create_user db u now = (.ok r, db2) →
        (∃ row ∈ db2.usuarios, findUsuario db2 r.id = some row ∧ usuarioOut row = r) ∧
        get_user db2 r.id = (.ok r, db2)) ∧
    (∀ (db : DB) (t : EquipoBase) (r : Equipo) (db2 : DB),
        (∀ x ∈ db.equipos, x.id ≤ db.seqEquipos) →
        create_team db t = (.ok r, db2) →
        (r ∈ db2.equipos ∧ findEquipo db2 r.id = some r) ∧
        get_team db2 r.id = (.ok r, db2)) ∧
    (∀ (db : DB) (m : MiembroCreate) (r : Miembro) (db2 : DB),
        (∀ x ∈ db.miembros, x.id ≤ db.seqMiembros) →
        add_member db m = (.ok r, db2) →
        r ∈ db2.miembros ∧ findMiembro db2 r.id = some r) ∧
    (∀ (db : DB) (t : TorneoBase) (r : Torneo) (db2 : DB),
        (∀ x ∈ db.torneos, x.id ≤ db.seqTorneos) →
        create_tournament db t = (.ok r, db2) →
        (r ∈ db2.torneos ∧ findTorneo db2 r.id = some r) ∧
        get_tournament db2 r.id = (.ok r, db2)) ∧
    (∀ (db : DB) (i : InscripcionCreate) (now : String) (r : Inscripcion) (db2 : DB),
        (∀ x ∈ db.inscripciones, x.id ≤ db.seqInscripciones) →
        create_inscription db i now = (.ok r, db2) →
        r ∈ db2.inscripciones ∧ findInscripcion db2 r.id = some r) ∧
    (∀ (db : DB) (p : PagoCreate) (now : String) (r : Pago) (db2 : DB),
        (∀ x ∈ db.pagos, x.id ≤ db.seqPagos) →
        create_payment db p now = (.ok r, db2) →
        r ∈ db2.pagos ∧ findPago db2 r.id = some r) ∧
    (∀ (db : DB) (m : PartidoCreate) (r : Partido) (db2 : DB),
        (∀ x ∈ db.partidos, x.id ≤ db.seqPartidos) →
        create_match db m = (.ok r, db2) →
        r ∈ db2.partidos ∧ findPartido db2 r.id = some r) := by
  refine ⟨?_, ?_, ?_, ?_, ?_, ?_, ?_⟩
  · intro db u now r db2 hwf hcr
    by_cases hd : ∃ x ∈ db.usuarios, x.email = u.email
    · rw [show create_user db u now = (.clientError, db) by
        simp only [create_user, if_pos hd]] at hcr
      exact absurd hcr (by simp)
    · rw [create_user_success hd hwf] at hcr
      injection hcr with h1 h2
      injection h1 with h1
      subst h1 h2
      have hfind : findUsuario
          { db with
              usuarios := db.usuarios ++
                [{ id := db.seqUsuarios + 1, nombre := u.nombre,
                   nickname := u.nickname, email := u.email,
                   pwd_hash := u.pwd_hash, fecha_reg := now }],
              seqUsuarios := db.seqUsuarios + 1 }
          (db.seqUsuarios + 1) =
          some { id := db.seqUsuarios + 1, nombre := u.nombre,
                 nickname := u.nickname, email := u.email,
                 pwd_hash := u.pwd_hash, fecha_reg := now } := by
        unfold findUsuario
        refine find_append_fresh _ _ _ (fun a ha => ?_) (by simp)
        have := hwf a ha
        simp only [beq_iff_eq]
        omega
      refine ⟨⟨_, by simp, hfind, rfl⟩, ?_⟩
      show get_user _ (db.seqUsuarios + 1) = _
      simp only [get_user, hfind]
      rfl
  · intro db t r db2 hwf hcr
    by_cases hd : (∃ e ∈ db.equipos, e.nombre = t.nombre) ∨
        ¬ (∃ x ∈ db.usuarios, x.id = t.id_capitan)
    · rw [show create_team db t = (.clientError, db) by
        simp only [create_team, if_pos hd]] at hcr
      exact absurd hcr (by simp)
    · obtain ⟨hname, hcap⟩ := not_or.1 hd
      rw [not_not] at hcap
      rw [create_team_success hname hcap hwf] at hcr
      injection hcr with h1 h2
      injection h1 with h1
      subst h1 h2
      have hfind : findEquipo
          { db with
              equipos := db.equipos ++
                [{ id := db.seqEquipos + 1, nombre := t.nombre,
                   id_capitan := t.id_capitan }],
              seqEquipos := db.seqEquipos + 1 }
          (db.seqEquipos + 1) =
          some { id := db.seqEquipos + 1, nombre := t.nombre,
                 id_capitan := t.id_capitan } := by
        unfold findEquipo
        refine find_append_fresh _ _ _ (fun a ha => ?_) (by simp)
        have := hwf a ha
        simp only [beq_iff_eq]
        omega
      refine ⟨⟨by simp, hfind⟩, ?_⟩
      show get_team _ (db.seqEquipos + 1) = _
      simp only [get_team, hfind]
  · intro db m r db2 hwf hcr
    by_cases hd : ¬ (m.rol = "jugador" ∨ m.rol = "capitan" ∨ m.rol = "suplente") ∨
        (∃ x ∈ db.miembros, x.id_equipo = m.id_equipo ∧ x.id_usuario = m.id_usuario) ∨
        ¬ (∃ e ∈ db.equipos, e.id = m.id_equipo) ∨
        ¬ (∃ x ∈ db.usuarios, x.id = m.id_usuario) ∨
        (m.rol = "capitan" ∧
          ∃ x ∈ db.miembros, x.id_equipo = m.id_equipo ∧ x.rol = "capitan")
    · rw [show add_member db m = (.clientError, db) by
        simp only [add_member, if_pos hd]] at hcr
      exact absurd hcr (by simp)
    · obtain ⟨h1, h2⟩ := not_or.1 hd
      obtain ⟨h3, h4⟩ := not_or.1 h2
      obtain ⟨h5, h6⟩ := not_or.1 h4
      obtain ⟨h7, h8⟩ := not_or.1 h6
      rw [not_not] at h1 h5 h7
      rw [add_member_success h1 h3 h5 h7 h8 hwf] at hcr
      injection hcr with hr1 hr2
      injection hr1 with hr1
      subst hr1 hr2
      have hfind : findMiembro
          { db with
              miembros := db.miembros ++
                [{ id := db.seqMiembros + 1, id_equipo := m.id_equipo,
                   id_usuario := m.id_usuario, rol := m.rol }],
              seqMiembros := db.seqMiembros + 1 }
          (db.seqMiembros + 1) =
          some { id := db.seqMiembros + 1, id_equipo := m.id_equipo,
                 id_usuario := m.id_usuario, rol := m.rol } := by
        unfold findMiembro
        refine find_append_fresh _ _ _ (fun a ha => ?_) (by simp)
        have := hwf a ha
        simp only [beq_iff_eq]
        omega
      exact ⟨by simp, hfind⟩
  · intro db t r db2 hwf hcr
    by_cases hd : ¬ (0 < t.max_equipos) ∨
        ¬ (t.estado = "programado" ∨ t.estado = "en_curso" ∨ t.estado = "finalizado")
    · rw [show create_tournament db t = (.serverError, db) by
        simp only [create_tournament, if_pos hd]] at hcr
      exact absurd hcr (by simp)
    · obtain ⟨hmax, hest⟩ := not_or.1 hd
      rw [not_not] at hmax hest
      rw [create_tournament_success hmax hest hwf] at hcr
      injection hcr with h1 h2
      injection h1 with h1
      subst h1 h2
      have hfind : findTorneo
          { db with
              torneos := db.torneos ++
                [{ id := db.seqTorneos + 1, nombre := t.nombre,
                   descripcion := t.descripcion, fecha_inicio := t.fecha_inicio,
                   fecha_fin := t.fecha_fin, max_equipos := t.max_equipos,
                   estado := t.estado }],
              seqTorneos := db.seqTorneos + 1 }
          (db.seqTorneos + 1) =
          some { id := db.seqTorneos + 1, nombre := t.nombre,
                 descripcion := t.descripcion, fecha_inicio := t.fecha_inicio,
                 fecha_fin := t.fecha_fin, max_equipos := t.max_equipos,
                 estado := t.estado } := by
        unfold findTorneo
        refine find_append_fresh _ _ _ (fun a ha => ?_) (by simp)
        have := hwf a ha
        simp only [beq_iff_eq]
        omega
      refine ⟨⟨by simp, hfind⟩, ?_⟩
      show get_tournament _ (db.seqTorneos + 1) = _
      simp only [get_tournament, hfind]
  · intro db i now r db2 hwf hcr
    by_cases hd : (∃ x ∈ db.inscripciones,
          x.id_equipo = i.id_equipo ∧ x.id_torneo = i.id_torneo) ∨
        ¬ (∃ e ∈ db.equipos, e.id = i.id_equipo) ∨
        ¬ (∃ t ∈ db.torneos, t.id = i.id_torneo)
    · rw [show create_inscription db i now = (.clientError, db) by
        simp only [create_inscription, if_pos hd]] at hcr
      exact absurd hcr (by simp)
    · obtain ⟨hdup, h2⟩ := not_or.1 hd
      obtain ⟨heq, htor⟩ := not_or.1 h2
      rw [not_not] at heq htor
      rw [create_inscription_success hdup heq htor hwf] at hcr
      injection hcr with h1 h2
      injection h1 with h1
      subst h1 h2
      have hfind : findInscripcion
          { db with
              inscripciones := db.inscripciones ++
                [{ id := db.seqInscripciones + 1, id_equipo := i.id_equipo,
                   id_torneo := i.id_torneo, fecha_inscripcion := now }],
              seqInscripciones := db.seqInscripciones + 1 }
          (db.seqInscripciones + 1) =
          some { id := db.seqInscripciones + 1, id_equipo := i.id_equipo,
                 id_torneo := i.id_torneo, fecha_inscripcion := now } := by
        unfold findInscripcion
        refine find_append_fresh _ _ _ (fun a ha => ?_) (by simp)
        have := hwf a ha
        simp only [beq_iff_eq]
        omega
      exact ⟨by simp, hfind⟩
  · intro db p now r db2 hwf hcr
    by_cases hd : ¬ (∃ e ∈ db.equipos, e.id = p.id_equipo) ∨
        ¬ (∃ t ∈ db.torneos, t.id = p.id_torneo) ∨
        ¬ (0 ≤ p.monto_cent) ∨
        ¬ (p.estado = "pendiente" ∨ p.estado = "confirmado")
    · rw [show create_payment db p now = (.clientError, db) by
        simp only [create_payment, if_pos hd]] at hcr
      exact absurd hcr (by simp)
    · obtain ⟨heq, h2⟩ := not_or.1 hd
      obtain ⟨htor, h4⟩ := not_or.1 h2
      obtain ⟨hmon, hest⟩ := not_or.1 h4
      rw [not_not] at heq htor hmon hest
      rw [create_payment_success heq htor hmon hest hwf] at hcr
      injection hcr with h1 h2
      injection h1 with h1
      subst h1 h2
      have hfind : findPago
          { db with
              pagos := db.pagos ++
                [{ id := db.seqPagos + 1, id_equipo := p.id_equipo,
                   id_torneo := p.id_torneo, monto_cent := p.monto_cent,
                   estado := p.estado, fecha_pago := now }],
              seqPagos := db.seqPagos + 1 }
          (db.seqPagos + 1) =
          some { id := db.seqPagos + 1, id_equipo := p.id_equipo,
                 id_torneo := p.id_torneo, monto_cent := p.monto_cent,
                 estado := p.estado, fecha_pago := now } := by
        unfold findPago
        refine find_append_fresh _ _ _ (fun a ha => ?_) (by simp)
        have := hwf a ha
        simp only [beq_iff_eq]
        omega
      exact ⟨by simp, hfind⟩
  · intro db m r db2 hwf hcr
    by_cases hd : ¬ (∃ t ∈ db.torneos, t.id = m.id_torneo) ∨
        ¬ (∃ e ∈ db.equipos, e.id = m.equipo_local) ∨
        ¬ (∃ e ∈ db.equipos, e.id = m.equipo_visitante) ∨
        m.equipo_local = m.equipo_visitante
    · rw [show create_match db m = (.clientError, db) by
        simp only [create_match, if_pos hd]] at hcr
      exact absurd hcr (by simp)
    · obtain ⟨htor, h2⟩ := not_or.1 hd
      obtain ⟨hloc, h4⟩ := not_or.1 h2
      obtain ⟨hvis, hne⟩ := not_or.1 h4
      rw [not_not] at htor hloc hvis
      rw [create_match_success htor hloc hvis hne hwf] at hcr
      injection hcr with h1 h2
      injection h1 with h1
      subst h1 h2
      have hfind : findPartido
          { db with
              partidos := db.partidos ++
                [{ id := db.seqPartidos + 1, id_torneo := m.id_torneo,
                   equipo_local := m.equipo_local,
                   equipo_visitante := m.equipo_visitante, fecha := m.fecha,
                   resultado_local := m.resultado_local,
                   resultado_visitante := m.resultado_visitante }],
              seqPartidos := db.seqPartidos + 1 }
          (db.seqPartidos + 1) =
          some { id := db.seqPartidos + 1, id_torneo := m.id_torneo,
                 equipo_local := m.equipo_local,
                 equipo_visitante := m.equipo_visitante, fecha := m.fecha,
                 resultado_local := m.resultado_local,
                 resultado_visitante := m.resultado_visitante } := by
        unfold findPartido
        refine find_append_fresh _ _ _ (fun a ha => ?_) (by simp)
        have := hwf a ha
        simp only [beq_iff_eq]
        omega
      exact ⟨by simp, hfind⟩

/-- Witness for C6: concrete successful creates on the populated states
`exDB2`/`exDB`, each response re-found in the committed state under its new
id, with get-by-id round trips for user, team and tournament. -/
theorem C6_create_roundtrip_witness :
    ((∃ row ∈ (create_user exDB2 ⟨"Eva", "eva", "eva@example.com", "h3"⟩ "t9").2.usuarios,
        findUsuario (create_user exDB2 ⟨"Eva", "eva", "eva@example.com", "h3"⟩ "t9").2 3 =
          some row ∧
        usuarioOut row = ⟨3, "Eva", "eva", "eva@example.com", "t9"⟩) ∧
      get_user (create_user exDB2 ⟨"Eva", "eva", "eva@example.com", "h3"⟩ "t9").2 3 =
        (.ok ⟨3, "Eva", "eva", "eva@example.com", "t9"⟩,
         (create_user exDB2 ⟨"Eva", "eva", "eva@example.com", "h3"⟩ "t9").2)) ∧
    (((⟨3, "Verde", 1⟩ : Equipo) ∈ (create_team exDB ⟨"Verde", 1⟩).2.equipos ∧
        findEquipo (create_team exDB ⟨"Verde", 1⟩).2 3 = some ⟨3, "Verde", 1⟩) ∧
      get_team (create_team exDB ⟨"Verde", 1⟩).2 3 =
        (.ok ⟨3, "Verde", 1⟩, (create_team exDB ⟨"Verde", 1⟩).2)) ∧
    ((⟨1, 1, 1, "jugador"⟩ : Miembro) ∈ (add_member exDB ⟨1, 1, "jugador"⟩).2.miembros ∧
      findMiembro (add_member exDB ⟨1, 1, "jugador"⟩).2 1 = some ⟨1, 1, 1, "jugador"⟩) ∧
    (((⟨2, "Liga", none, "a", "b", 4, "programado"⟩ : Torneo) ∈
        (create_tournament exDB ⟨"Liga", none, "a", "b", 4, "programado"⟩).2.torneos ∧
      findTorneo (create_tournament exDB ⟨"Liga", none, "a", "b", 4, "programado"⟩).2 2 =
        some ⟨2, "Liga", none, "a", "b", 4, "programado"⟩) ∧
      get_tournament (create_tournament exDB ⟨"Liga", none, "a", "b", 4, "programado"⟩).2 2 =
        (.ok ⟨2, "Liga", none, "a", "b", 4, "programado"⟩,
         (create_tournament exDB ⟨"Liga", none, "a", "b", 4, "programado"⟩).2)) ∧
    ((⟨1, 1, 1, "t5"⟩ : Inscripcion) ∈
        (create_inscription exDB ⟨1, 1⟩ "t5").2.inscripciones ∧
      findInscripcion (create_inscription exDB ⟨1, 1⟩ "t5").2 1 = some ⟨1, 1, 1, "t5"⟩) ∧
    ((⟨1, 1, 1, 100, "pendiente", "t6"⟩ : Pago) ∈
        (create_payment exDB ⟨1, 1, 100, "pendiente"⟩ "t6").2.pagos ∧
      findPago (create_payment exDB ⟨1, 1, 100, "pendiente"⟩ "t6").2 1 =
        some ⟨1, 1, 1, 100, "pendiente", "t6"⟩) ∧
    ((⟨2, 1, 2, 1, "t7", none, none⟩ : Partido) ∈
        (create_match exDB ⟨1, 2, 1, "t7", none, none⟩).2.partidos ∧
      findPartido (create_match exDB ⟨1, 2, 1, "t7", none, none⟩).2 2 =
        some ⟨2, 1, 2, 1, "t7", none, none⟩) :=
  ⟨C6_create_roundtrip.1 exDB2 ⟨"Eva", "eva", "eva@example.com", "h3"⟩ "t9"
      ⟨3, "Eva", "eva", "eva@example.com", "t9"⟩ _ (by decide) (by decide),
   C6_create_roundtrip.2.1 exDB ⟨"Verde", 1⟩ ⟨3, "Verde", 1⟩ _ (by decide) (by decide),
   C6_create_roundtrip.2.2.1 exDB ⟨1, 1, "jugador"⟩ ⟨1, 1, 1, "jugador"⟩ _
     (by decide) (by decide),
   C6_create_roundtrip.2.2.2.1 exDB ⟨"Liga", none, "a", "b", 4, "programado"⟩
     ⟨2, "Liga", none, "a", "b", 4, "programado"⟩ _ (by decide) (by decide),
   C6_create_roundtrip.2.2.2.2.1 exDB ⟨1, 1⟩ "t5" ⟨1, 1, 1, "t5"⟩ _
     (by decide) (by decide),
   C6_create_roundtrip.2.2.2.2.2.1 exDB ⟨1, 1, 100, "pendiente"⟩ "t6"
     ⟨1, 1, 1, 100, "pendiente", "t6"⟩ _ (by decide) (by decide),
   C6_create_roundtrip.2.2.2.2.2.2 exDB ⟨1, 2, 1, "t7", none, none⟩
     ⟨2, 1, 2, 1, "t7", none, none⟩ _ (by decide) (by decide)⟩

-- ————— Scrubbing lemmas for the password-hash hyperproperty —————

@[simp] lemma scrubUsuario_id (r : UsuarioRow) : (scrubUsuario r).id = r.id := rfl

@[simp] lemma scrubUsuario_email (r : UsuarioRow) :
    (scrubUsuario r).email = r.email := rfl

@[simp] lemma usuarioOut_scrub (r : UsuarioRow) :
    usuarioOut (scrubUsuario r) = usuarioOut r := rfl

/-- `fetchone` commutes with scrubbing when the row filter ignores
`pwd_hash`. -/
lemma find_scrub (l : List UsuarioRow) (p : UsuarioRow → Bool)
    (hp : ∀ r, p (scrubUsuario r) = p r) :
    (l.map scrubUsuario).find? p = (l.find? p).map scrubUsuario := by
  rw [List.find?_map, show p ∘ scrubUsuario = p from funext hp]

/-- C9: no user endpoint response depends on any stored or submitted
password hash.  Blanking every stored `pwd_hash` (`scrubDB`) and replacing
the submitted one leaves the responses of `list_users`, `get_user`,
`update_user` and `create_user` unchanged — the `Usuario` response schema
carries no `pwd_hash` field, so none of these endpoints can disclose it. -/
theorem C9_pwd_hash_not_disclosed :
    ∀ (db : DB) (uid : Nat) (u : UsuarioBase) (now : String)
      (nombre nickname email ph1 ph2 : String),
      list_users (scrubDB db) = list_users db ∧
      (get_user (scrubDB db) uid).1 = (get_user db uid).1 ∧
      (update_user (scrubDB db) uid u).1 = (update_user db uid u).1 ∧
      (create_user (scrubDB db) ⟨nombre, nickname, email, ph2⟩ now).1 =
        (create_user db ⟨nombre, nickname, email, ph1⟩ now).1 := by
  intro db uid u now nombre nickname email ph1 ph2
  refine ⟨?_, ?_, ?_, ?_⟩
  · show (db.usuarios.map scrubUsuario).map usuarioOut = db.usuarios.map usuarioOut
    rw [List.map_map]
    rfl
  · have hf : findUsuario (scrubDB db) uid =
        (findUsuario db uid).map scrubUsuario :=
      find_scrub db.usuarios _ (fun r => rfl)
    cases h : findUsuario db uid with
    | none => rw [h] at hf; simp [get_user, hf, h]
    | some r => rw [h] at hf; simp [get_user, hf, h]
  · have hcond : ((∃ r ∈ (scrubDB db).usuarios, r.id = uid) ∧
        (∃ r ∈ (scrubDB db).usuarios, r.id ≠ uid ∧ r.email = u.email)) ↔
        ((∃ r ∈ db.usuarios, r.id = uid) ∧
        (∃ r ∈ db.usuarios, r.id ≠ uid ∧ r.email = u.email)) := by
      simp [scrubDB]
    have hrc : ((scrubDB db).usuarios.filter (fun r => r.id == uid)).length =
        (db.usuarios.filter (fun r => r.id == uid)).length := by
      show ((db.usuarios.map scrubUsuario).filter (fun r => r.id == uid)).length = _
      rw [List.filter_map, show ((fun r : UsuarioRow => r.id == uid) ∘ scrubUsuario) =
        (fun r : UsuarioRow => r.id == uid) from funext (fun r => rfl),
        List.length_map]
    by_cases h1 : (∃ r ∈ db.usuarios, r.id = uid) ∧
        (∃ r ∈ db.usuarios, r.id ≠ uid ∧ r.email = u.email)
    · simp only [update_user, if_pos h1, if_pos (hcond.mpr h1)]
    · by_cases h2 : (db.usuarios.filter (fun r => r.id == uid)).length = 0
      · have h2s : ((scrubDB db).usuarios.filter (fun r => r.id == uid)).length = 0 := by
          rw [hrc]; exact h2
        simp only [update_user, if_neg h1, if_neg (fun hh => h1 (hcond.mp hh)),
          if_pos h2, if_pos h2s]
      · have h2s : ¬ ((scrubDB db).usuarios.filter (fun r => r.id == uid)).length = 0 := by
          rw [hrc]; exact h2
        simp only [update_user, if_neg h1, if_neg (fun hh => h1 (hcond.mp hh)),
          if_neg h2, if_neg h2s]
        have hmap : (scrubDB db).usuarios.map (fun r =>
            if r.id = uid then
              { r with nombre := u.nombre, nickname := u.nickname, email := u.email }
            else r) =
            (db.usuarios.map (fun r =>
              if r.id = uid then
                { r with nombre := u.nombre, nickname := u.nickname, email := u.email }
              else r)).map scrubUsuario := by
          show (db.usuarios.map scrubUsuario).map _ = _
          rw [List.map_map, List.map_map]
          refine List.map_congr_left (fun a _ => ?_)
          show (if (scrubUsuario a).id = uid then _ else scrubUsuario a) = _
          by_cases h : a.id = uid <;>
            simp [scrubUsuario, h]
        show (match ((scrubDB db).usuarios.map (fun r =>
              if r.id = uid then
                { r with nombre := u.nombre, nickname := u.nickname, email := u.email }
              else r)).find? (fun r => r.id == uid) with
            | some r => Response.ok (usuarioOut r)
            | none => Response.serverError) =
          (match (db.usuarios.map (fun r =>
              if r.id = uid then
                { r with nombre := u.nombre, nickname := u.nickname, email := u.email }
              else r)).find? (fun r => r.id == uid) with
            | some r => Response.ok (usuarioOut r)
            | none => Response.serverError)
        rw [hmap, find_scrub _ (fun r => r.id == uid) (fun r => rfl)]
        cases (db.usuarios.map (fun r =>
            if r.id = uid then
              { r with nombre := u.nombre, nickname := u.nickname, email := u.email }
            else r)).find? (fun r => r.id == uid) with
        | none => rfl
        | some r => simp
  · have hdup : (∃ r ∈ (scrubDB db).usuarios, r.email = email) ↔
        (∃ r ∈ db.usuarios, r.email = email) := by
      simp [scrubDB]
    by_cases hd : ∃ r ∈ db.usuarios, r.email = email
    · simp only [create_user, if_pos hd, if_pos (hdup.mpr hd)]
    · simp only [create_user, if_neg hd, if_neg (fun hh => hd (hdup.mp hh))]
      have hseq : (scrubDB db).seqUsuarios = db.seqUsuarios := rfl
      rw [hseq]
      have hsplitS : ((scrubDB db).usuarios ++
          [({ id := db.seqUsuarios + 1, nombre := nombre, nickname := nickname,
              email := email, pwd_hash := ph2, fecha_reg := now } : UsuarioRow)]).find?
            (fun r => r.id == db.seqUsuarios + 1) =
          ((db.usuarios.find? (fun r => r.id == db.seqUsuarios + 1)).map scrubUsuario).or
            (some ({ id := db.seqUsuarios + 1, nombre := nombre, nickname := nickname,
                     email := email, pwd_hash := ph2, fecha_reg := now } : UsuarioRow)) := by
        rw [List.find?_append,
          show (scrubDB db).usuarios = db.usuarios.map scrubUsuario from rfl,
          find_scrub db.usuarios (fun r => r.id == db.seqUsuarios + 1) (fun r => rfl)]
        congr 1
        simp [List.find?]
      have hsplit : (db.usuarios ++
          [({ id := db.seqUsuarios + 1, nombre := nombre, nickname := nickname,
              email := email, pwd_hash := ph1, fecha_reg := now } : UsuarioRow)]).find?
            (fun r => r.id == db.seqUsuarios + 1) =
          (db.usuarios.find? (fun r => r.id == db.seqUsuarios + 1)).or
            (some ({ id := db.seqUsuarios + 1, nombre := nombre, nickname := nickname,
                     email := email, pwd_hash := ph1, fecha_reg := now } : UsuarioRow)) := by
        rw [List.find?_append]
        congr 1
        simp [List.find?]
      show (match ((scrubDB db).usuarios ++
            [({ id := db.seqUsuarios + 1, nombre := nombre, nickname := nickname,
                email := email, pwd_hash := ph2, fecha_reg := now } : UsuarioRow)]).find?
              (fun r => r.id == db.seqUsuarios + 1) with
          | some r => Response.ok (usuarioOut r)
          | none => Response.serverError) =
        (match (db.usuarios ++
            [({ id := db.seqUsuarios + 1, nombre := nombre, nickname := nickname,
                email := email, pwd_hash := ph1, fecha_reg := now } : UsuarioRow)]).find?
              (fun r => r.id == db.seqUsuarios + 1) with
          | some r => Response.ok (usuarioOut r)
          | none => Response.serverError)
      rw [hsplitS, hsplit]
      cases db.usuarios.find? (fun r => r.id == db.seqUsuarios + 1) with
      | none => rfl
      | some r => simp

/-- C10: whenever an endpoint answers with the 400 client error or the 404
not-found error, the committed database state after the request equals the
state before it — the handlers raise before `db.commit()` and `get_db`
closes the per-request connection, discarding any uncommitted statement.
The read-only get endpoints never change the state at all. -/
theorem C10_error_leaves_state :
    (∀ (db : DB) (u : UsuarioCreate) (now : String),
        ((create_user db u now).1 = .clientError ∨ (create_user db u now).1 = .notFound) →
        (create_user db u now).2 = db) ∧
    (∀ (db : DB) (i : Nat), (get_user db i).2 = db) ∧
    (∀ (db : DB) (i : Nat) (u : UsuarioBase),
        ((update_user db i u).1 = .clientError ∨ (update_user db i u).1 = .notFound) →
        (update_user db i u).2 = db) ∧
    (∀ (db : DB) (i : Nat),
        ((delete_user db i).1 = .clientError ∨ (delete_user db i).1 = .notFound) →
        (delete_user db i).2 = db) ∧
    (∀ (db : DB) (t : EquipoBase),
        ((create_team db t).1 = .clientError ∨ (create_team db t).1 = .notFound) →
        (create_team db t).2 = db) ∧
    (∀ (db : DB) (i : Nat), (get_team db i).2 = db) ∧
    (∀ (db : DB) (i : Nat) (t : EquipoBase),
        ((update_team db i t).1 = .clientError ∨ (update_team db i t).1 = .notFound) →
        (update_team db i t).2 = db) ∧
    (∀ (db : DB) (i : Nat),
        ((delete_team db i).1 = .clientError ∨ (delete_team db i).1 = .notFound) →
        (delete_team db i).2 = db) ∧
    (∀ (db : DB) (m : MiembroCreate),
        ((add_member db m).1 = .clientError ∨ (add_member db m).1 = .notFound) →
        (add_member db m).2 = db) ∧
    (∀ (db : DB) (i : Nat),
        ((delete_member db i).1 = .clientError ∨ (delete_member db i).1 = .notFound) →
        (delete_member db i).2 = db) ∧
    (∀ (db : DB) (t : TorneoBase),
        ((create_tournament db t).1 = .clientError ∨
          (create_tournament db t).1 = .notFound) →
        (create_tournament db t).2 = db) ∧
    (∀ (db : DB) (i : Nat), (get_tournament db i).2 = db) ∧
    (∀ (db : DB) (i : Nat) (t : TorneoBase),
        ((update_tournament db i t).1 = .clientError ∨
          (update_tournament db i t).1 = .notFound) →
        (update_tournament db i t).2 = db) ∧
    (∀ (db : DB) (i : Nat),
        ((delete_tournament db i).1 = .clientError ∨
          (delete_tournament db i).1 = .notFound) →
        (delete_tournament db i).2 = db) ∧
    (∀ (db : DB) (x : InscripcionCreate) (now : String),
        ((create_inscription db x now).1 = .clientError ∨
          (create_inscription db x now).1 = .notFound) →
        (create_inscription db x now).2 = db) ∧
    (∀ (db : DB) (i : Nat),
        ((delete_inscription db i).1 = .clientError ∨
          (delete_inscription db i).1 = .notFound) →
        (delete_inscription db i).2 = db) ∧
    (∀ (db : DB) (p : PagoCreate) (now : String),
        ((create_payment db p now).1 = .clientError ∨
          (create_payment db p now).1 = .notFound) →
        (create_payment db p now).2 = db) ∧
    (∀ (db : DB) (i : Nat),
        ((delete_payment db i).1 = .clientError ∨ (delete_payment db i).1 = .notFound) →
        (delete_payment db i).2 = db) ∧
    (∀ (db : DB) (m : PartidoCreate),
        ((create_match db m).1 = .clientError ∨ (create_match db m).1 = .notFound) →
        (create_match db m).2 = db) ∧
    (∀ (db : DB) (i : Nat),
        ((delete_match db i).1 = .clientError ∨ (delete_match db i).1 = .notFound) →
        (delete_match db i).2 = db) := by
  refine ⟨?_, ?_, ?_, ?_, ?_, ?_, ?_, ?_, ?_, ?_, ?_, ?_, ?_, ?_, ?_, ?_, ?_, ?_, ?_, ?_⟩
  · intro db u now h
    unfold create_user at h ⊢
    split_ifs at h ⊢
    · rfl
    · exfalso
      simp only [] at h
      split at h <;> simp at h
  · intro db i
    unfold get_user
    split <;> rfl
  · intro db i u h
    unfold update_user at h ⊢
    split_ifs at h ⊢
    · rfl
    · rfl
    · exfalso
      simp only [] at h
      split at h <;> simp at h
  · intro db i h
    unfold delete_user at h ⊢
    split_ifs at h ⊢
    · rfl
    · rfl
    · simp at h
  · intro db t h
    unfold create_team at h ⊢
    split_ifs at h ⊢
    · rfl
    · exfalso
      simp only [] at h
      split at h <;> simp at h
  · intro db i
    unfold get_team
    split <;> rfl
  · intro db i t h
    unfold update_team at h ⊢
    split_ifs at h ⊢
    · rfl
    · rfl
    · exfalso
      simp only [] at h
      split at h <;> simp at h
  · intro db i h
    unfold delete_team at h ⊢
    split_ifs at h ⊢
    · rfl
    · rfl
    · simp at h
  · intro db m h
    unfold add_member at h ⊢
    split_ifs at h ⊢
    · rfl
    · exfalso
      simp only [] at h
      split at h <;> simp at h
  · intro db i h
    unfold delete_member at h ⊢
    split_ifs at h ⊢
    · rfl
    · simp at h
  · intro db t h
    unfold create_tournament at h ⊢
    split_ifs at h ⊢
    · rfl
    · exfalso
      simp only [] at h
      split at h <;> simp at h
  · intro db i
    unfold get_tournament
    split <;> rfl
  · intro db i t h
    unfold update_tournament at h ⊢
    split_ifs at h ⊢
    · rfl
    · rfl
    · exfalso
      simp only [] at h
      split at h <;> simp at h
  · intro db i h
    unfold delete_tournament at h ⊢
    split_ifs at h ⊢
    · rfl
    · simp at h
  · intro db x now h
    unfold create_inscription at h ⊢
    split_ifs at h ⊢
    · rfl
    · exfalso
      simp only [] at h
      split at h <;> simp at h
  · intro db i h
    unfold delete_inscription at h ⊢
    split_ifs at h ⊢
    · rfl
    · simp at h
  · intro db p now h
    unfold create_payment at h ⊢
    split_ifs at h ⊢
    · rfl
    · exfalso
      simp only [] at h
      split at h <;> simp at h
  · intro db i h
    unfold delete_payment at h ⊢
    split_ifs at h ⊢
    · rfl
    · simp at h
  · intro db m h
    unfold create_match at h ⊢
    split_ifs at h ⊢
    · rfl
    · exfalso
      simp only [] at h
      split at h <;> simp at h
  · intro db i h
    unfold delete_match at h ⊢
    split_ifs at h ⊢
    · rfl
    · simp at h

/-- Witness for C10: concrete 400/404 answers that leave the state intact —
a duplicate-email create, an update and a tournament delete against the
empty database, and a delete of an absent team. -/
theorem C10_error_leaves_state_witness :
    (create_user exDB2 ⟨"Eva", "eva", "ana@example.com", "h3"⟩ "t9").2 = exDB2 ∧
    (update_user DB.empty 1 ⟨"a", "b", "c@d.e"⟩).2 = DB.empty ∧
    (delete_team exDB2 7).2 = exDB2 ∧
    (delete_tournament DB.empty 1).2 = DB.empty :=
  ⟨C10_error_leaves_state.1 exDB2 ⟨"Eva", "eva", "ana@example.com", "h3"⟩ "t9"
      (Or.inl (by decide)),
   C10_error_leaves_state.2.2.1 DB.empty 1 ⟨"a", "b", "c@d.e"⟩ (Or.inr (by decide)),
   C10_error_leaves_state.2.2.2.2.2.2.2.1 exDB2 7 (Or.inr (by decide)),
   C10_error_leaves_state.2.2.2.2.2.2.2.2.2.2.2.2.2.1 DB.empty 1 (Or.inr (by decide))⟩

/-- C1 counterexample: on the concrete state `exDB`, team 1 exists and is the
home team of match 1, so `DELETE FROM equipos WHERE id = 1` violates the
ON DELETE RESTRICT foreign key — yet the endpoint does not answer 400: the
`sqlite3.IntegrityError` escapes `delete_team` uncaught, an unstructured
failure. -/
theorem C1_counterexample :
    (∃ e ∈ exDB.equipos, e.id = 1) ∧
    (∃ p ∈ exDB.partidos, p.equipo_local = 1 ∨ p.equipo_visitante = 1) ∧
    (delete_team exDB 1).1 = Response.serverError ∧
    (delete_team exDB 1).1 ≠ Response.clientError := by
  decide

/-- C1 amended: constraint violations hit by the INSERT of the six create
endpoints that wrap it in `try/except sqlite3.IntegrityError` are answered
with the 400 client error (state unchanged); but a constraint violation hit
by `update_user`, `update_team`, `delete_user` or `delete_team` — which have
no `try/except` — escapes uncaught as an unstructured failure (the state is
still unchanged, as nothing was committed). -/
theorem C1_constraint_violation_handling :
    (∀ (db : DB) (u : UsuarioCreate) (now : String),
        (∃ r ∈ db.usuarios, r.email = u.email) →
        create_user db u now = (.clientError, db)) ∧
    (∀ (db : DB) (t : EquipoBase),
        ((∃ e ∈ db.equipos, e.nombre = t.nombre) ∨
          ¬ (∃ r ∈ db.usuarios, r.id = t.id_capitan)) →
        create_team db t = (.clientError, db)) ∧
    (∀ (db : DB) (m : MiembroCreate),
        (¬ (m.rol = "jugador" ∨ m.rol = "capitan" ∨ m.rol = "suplente") ∨
          (∃ x ∈ db.miembros, x.id_equipo = m.id_equipo ∧ x.id_usuario = m.id_usuario) ∨
          ¬ (∃ e ∈ db.equipos, e.id = m.id_equipo) ∨
          ¬ (∃ r ∈ db.usuarios, r.id = m.id_usuario) ∨
          (m.rol = "capitan" ∧
            ∃ x ∈ db.miembros, x.id_equipo = m.id_equipo ∧ x.rol = "capitan")) →
        add_member db m = (.clientError, db)) ∧
    (∀ (db : DB) (i : InscripcionCreate) (now : String),
        ((∃ x ∈ db.inscripciones, x.id_equipo = i.id_equipo ∧ x.id_torneo = i.id_torneo) ∨
          ¬ (∃ e ∈ db.equipos, e.id = i.id_equipo) ∨
          ¬ (∃ t ∈ db.torneos, t.id = i.id_torneo)) →
        create_inscription db i now = (.clientError, db)) ∧
    (∀ (db : DB) (p : PagoCreate) (now : String),
        (¬ (∃ e ∈ db.equipos, e.id = p.id_equipo) ∨
          ¬ (∃ t ∈ db.torneos, t.id = p.id_torneo) ∨
          ¬ (0 ≤ p.monto_cent) ∨
          ¬ (p.estado = "pendiente" ∨ p.estado = "confirmado")) →
        create_payment db p now = (.clientError, db)) ∧
    (∀ (db : DB) (m : PartidoCreate),
        (¬ (∃ t ∈ db.torneos, t.id = m.id_torneo) ∨
          ¬ (∃ e ∈ db.equipos, e.id = m.equipo_local) ∨
          ¬ (∃ e ∈ db.equipos, e.id = m.equipo_visitante) ∨
          m.equipo_local = m.equipo_visitante) →
        create_match db m = (.clientError, db)) ∧
    (∀ (db : DB) (uid : Nat) (u : UsuarioBase),
        (∃ r ∈ db.usuarios, r.id = uid) →
        (∃ r ∈ db.usuarios, r.id ≠ uid ∧ r.email = u.email) →
        update_user db uid u = (.serverError, db)) ∧
    (∀ (db : DB) (tid : Nat) (t : EquipoBase),
        (∃ e ∈ db.equipos, e.id = tid) →
        ((∃ e ∈ db.equipos, e.id ≠ tid ∧ e.nombre = t.nombre) ∨
          ¬ (∃ r ∈ db.usuarios, r.id = t.id_capitan)) →
        update_team db tid t = (.serverError, db)) ∧
    (∀ (db : DB) (uid : Nat),
        (∃ r ∈ db.usuarios, r.id = uid) →
        (∃ e ∈ db.equipos, e.id_capitan = uid) →
        delete_user db uid = (.serverError, db)) ∧
    (∀ (db : DB) (tid : Nat),
        (∃ e ∈ db.equipos, e.id = tid) →
        (∃ p ∈ db.partidos, p.equipo_local = tid ∨ p.equipo_visitante = tid) →
        delete_team db tid = (.serverError, db)) := by
  refine ⟨?_, ?_, ?_, ?_, ?_, ?_, ?_, ?_, ?_, ?_⟩
  · intro db u now h
    simp only [create_user, if_pos h]
  · intro db t h
    simp only [create_team, if_pos h]
  · intro db m h
    simp only [add_member, if_pos h]
  · intro db i now h
    simp only [create_inscription, if_pos h]
  · intro db p now h
    simp only [create_payment, if_pos h]
  · intro db m h
    simp only [create_match, if_pos h]
  · intro db uid u h1 h2
    simp only [update_user, if_pos (And.intro h1 h2)]
  · intro db tid t h1 h2
    simp only [update_team, if_pos (And.intro h1 h2)]
  · intro db uid h1 h2
    simp only [delete_user, if_pos (And.intro h1 h2)]
  · intro db tid h1 h2
    simp only [delete_team, if_pos (And.intro h1 h2)]

/-- Witness for the amended C1: each create endpoint answering 400 on a
concrete violation, and each uncovered update/delete letting a concrete
violation escape uncaught. -/
theorem C1_constraint_violation_handling_witness :
    create_user exDB2 ⟨"Eva", "eva", "ana@example.com", "h3"⟩ "t9"
      = (.clientError, exDB2) ∧
    create_team DB.empty ⟨"X", 1⟩ = (.clientError, DB.empty) ∧
    add_member DB.empty ⟨1, 1, "rey"⟩ = (.clientError, DB.empty) ∧
    create_inscription DB.empty ⟨1, 1⟩ "t" = (.clientError, DB.empty) ∧
    create_payment DB.empty ⟨1, 1, 5, "pendiente"⟩ "t" = (.clientError, DB.empty) ∧
    create_match DB.empty ⟨1, 1, 2, "t", none, none⟩ = (.clientError, DB.empty) ∧
    update_user exDB2 1 ⟨"N", "n", "luis@example.com"⟩ = (.serverError, exDB2) ∧
    update_team exDB 1 ⟨"Rojo", 99⟩ = (.serverError, exDB) ∧
    delete_user exDB 1 = (.serverError, exDB) ∧
    delete_team exDB 1 = (.serverError, exDB) :=
  ⟨C1_constraint_violation_handling.1 exDB2 ⟨"Eva", "eva", "ana@example.com", "h3"⟩
      "t9" (by decide),
   C1_constraint_violation_handling.2.1 DB.empty ⟨"X", 1⟩ (by decide),
   C1_constraint_violation_handling.2.2.1 DB.empty ⟨1, 1, "rey"⟩ (by decide),
   C1_constraint_violation_handling.2.2.2.1 DB.empty ⟨1, 1⟩ "t" (by decide),
   C1_constraint_violation_handling.2.2.2.2.1 DB.empty ⟨1, 1, 5, "pendiente"⟩ "t"
     (by decide),
   C1_constraint_violation_handling.2.2.2.2.2.1 DB.empty ⟨1, 1, 2, "t", none, none⟩
     (by decide),
   C1_constraint_violation_handling.2.2.2.2.2.2.1 exDB2 1 ⟨"N", "n", "luis@example.com"⟩
     (by decide) (by decide),
   C1_constraint_violation_handling.2.2.2.2.2.2.2.1 exDB 1 ⟨"Rojo", 99⟩
     (by decide) (by decide),
   C1_constraint_violation_handling.2.2.2.2.2.2.2.2.1 exDB 1 (by decide) (by decide),
   C1_constraint_violation_handling.2.2.2.2.2.2.2.2.2 exDB 1 (by decide) (by decide)⟩
